import Mathlib

/-!
DS1302 real-time-clock control driver (`rtc_control_driver.c`)

A shallow embedding of the clock/mode state engine of the driver: the shared
record `current_state`, the periodic tick, the rotary and button deferred
handlers, the two interrupt handlers with their debounce timestamps, the
character-device `read`/`write` entry points, the bit-level transport
(`ds1302_write_byte`, `ds1302_read_byte`) and the module initialisation.

Conventions of the embedding

* C `int` fields are `Int`; every `++` / `+=` of the source is followed by
  `wrap32`, the wrap of a 32-bit signed `int` (the kernel is built with wrapping
  signed arithmetic).
* `unsigned long` values (jiffies, the debounce timestamps, the timer expiry)
  are `Nat`, reduced modulo `2 ^ BITS_PER_LONG` where the source adds.
* The hardware below `ds1302_read_reg` / `ds1302_write_reg` is a fake register
  file `regs`: a read of command byte `c` returns `regs c`, a write of command
  byte `c` stores at `c ||| 1` (the read address of the same register).
* Function-like macros are expanded as the preprocessor does: an argument with
  a side effect is evaluated once per occurrence in the macro body.
* Every call that matters to the specification is appended (newest first) to the
  ghost list `trace`.
* The bit-level transport is modelled one level below, as the list of pin
  operations (`PinOp`, in program order) a byte transfer performs; the levels
  seen on the data line are an input of `ds1302_read_byte`.
* `my_driver_init` runs against an environment `InitEnv` that fixes the return
  value of every kernel service it calls; the resources held are a ghost list.
-/

namespace RtcControl

/-! Data model -/

/-- The record `clock_info_t` exchanged verbatim with user space. -/
structure clock_info_t where
  hours : Int
  minutes : Int
  seconds : Int
  mode : Int
deriving DecidableEq

/-- Mode 0 of `clock_info_t.mode`: the clock runs. -/
abbrev Normal : Int := 0

/-- Mode 1 of `clock_info_t.mode`: the rotary encoder edits the hour. -/
abbrev SetHour : Int := 1

/-- Mode 2 of `clock_info_t.mode`: the rotary encoder edits the minute. -/
abbrev SetMinute : Int := 2

/-- Calls recorded in the ghost trace. -/
inductive Call where
  | ds1302_read_reg (cmd : Nat)
  | ds1302_write_reg (cmd data : Nat)
  | get_rtc_time
  | set_rtc_time
  | mod_timer (expires : Nat)
  | schedule_rotary_work
  | schedule_btn_work
deriving DecidableEq

/-- The file-scope variables of the driver together with the fake register file
and the ghost trace. -/
structure World where
  current_state : clock_info_t
  last_rotary_time : Nat
  last_btn_time : Nat
  my_timer : Nat
  regs : Nat → Nat
  trace : List Call

/-- Kernel configuration the driver is compiled against: the width of
`unsigned long` and the conversion `msecs_to_jiffies` (which depends on `HZ`). -/
structure Kernel where
  BITS_PER_LONG : Nat
  msecs_to_jiffies : Nat → Nat

/-- Error number `EFAULT`. -/
def EFAULT : Int := 14

/-- Error number `EINVAL`. -/
def EINVAL : Int := 22

/-- Size in bytes of `clock_info_t` (four 32-bit `int`s). -/
def sizeof_clock_info_t : Nat := 16

/-! Machine arithmetic -/

/-- Wrap of a C `int` to 32 bits, signed. -/
def wrap32 (x : Int) : Int := (x + 2147483648) % 4294967296 - 2147483648

/-- Conversion of an `int` to `unsigned char`. -/
def u8 (x : Int) : Nat := (x % 256).toNat

/-- Reduction of a value to `unsigned long`. -/
def ulong (K : Kernel) (x : Nat) : Nat := x % 2 ^ K.BITS_PER_LONG

/-- Conversion of a `size_t` value to `ssize_t` (a signed `long`): values with
the top bit of the word set become negative. -/
def to_ssize_t (K : Kernel) (x : Nat) : Int :=
  if x % 2 ^ K.BITS_PER_LONG < 2 ^ (K.BITS_PER_LONG - 1) then
    ((x % 2 ^ K.BITS_PER_LONG : Nat) : Int)
  else ((x % 2 ^ K.BITS_PER_LONG : Nat) : Int) - 2 ^ K.BITS_PER_LONG

/-- The kernel comparison `time_after(a, b)`, that is `(long)(b - a) < 0` on
`unsigned long` operands: the difference `b - a` taken modulo the word has its
sign bit set. -/
def time_after (K : Kernel) (a b : Nat) : Bool :=
  decide (2 ^ (K.BITS_PER_LONG - 1) ≤ ((b : Int) - (a : Int)) % 2 ^ K.BITS_PER_LONG)

/-- The body of the macro `BCD2BIN(val)` with its two occurrences of `val` kept
apart: `lo` is the value of the first occurrence, `hi` the value of the second. -/
def BCD2BIN_expand (lo hi : Nat) : Int := ((lo &&& 0x0f) + (hi >>> 4) * 10 : Nat)

/-- The macro `BCD2BIN(val)`, applied to an `unsigned char` value. -/
def BCD2BIN (val : Nat) : Int := BCD2BIN_expand val val

/-- The macro `BIN2BCD(val)`, applied to an `int`: C division and remainder
truncate towards zero, the shift by four is a wrapping multiplication by 16. -/
def BIN2BCD (val : Int) : Int :=
  wrap32 (wrap32 (Int.tdiv val 10 * 16) + Int.tmod val 10)

/-! Register access over the fake register file -/

/-- Model of `ds1302_read_reg`: one read transaction, returning an `unsigned char`. -/
def ds1302_read_reg (cmd : Nat) (w : World) : Nat × World :=
  (w.regs cmd % 256, { w with trace := Call.ds1302_read_reg cmd :: w.trace })

/-- Model of `ds1302_write_reg`: one write transaction. -/
def ds1302_write_reg (cmd data : Nat) (w : World) : World :=
  { w with
    regs := Function.update w.regs (cmd ||| 1) data
    trace := Call.ds1302_write_reg cmd data :: w.trace }

/-- Model of `get_rtc_time`: seconds, minutes, hours are read in this order and
decoded into `current_state`. Each `BCD2BIN(ds1302_read_reg(c))` expands to two
calls of `ds1302_read_reg(c)`, one per occurrence of the macro argument (taken
left to right). -/
def get_rtc_time (w : World) : World :=
  let w := { w with trace := Call.get_rtc_time :: w.trace }
  let lo := ds1302_read_reg 0x81 w
  let hi := ds1302_read_reg 0x81 lo.2
  let w := { hi.2 with current_state :=
    { hi.2.current_state with seconds := BCD2BIN_expand lo.1 hi.1 } }
  let lo := ds1302_read_reg 0x83 w
  let hi := ds1302_read_reg 0x83 lo.2
  let w := { hi.2 with current_state :=
    { hi.2.current_state with minutes := BCD2BIN_expand lo.1 hi.1 } }
  let lo := ds1302_read_reg 0x85 w
  let hi := ds1302_read_reg 0x85 lo.2
  { hi.2 with current_state := { hi.2.current_state with hours := BCD2BIN_expand lo.1 hi.1 } }

/-- Model of `set_rtc_time`: write protection off, hours, minutes, seconds,
write protection on. -/
def set_rtc_time (w : World) : World :=
  let w := { w with trace := Call.set_rtc_time :: w.trace }
  let w := ds1302_write_reg 0x8E 0x00 w
  let w := ds1302_write_reg 0x84 (u8 (BIN2BCD w.current_state.hours)) w
  let w := ds1302_write_reg 0x82 (u8 (BIN2BCD w.current_state.minutes)) w
  let w := ds1302_write_reg 0x80 (u8 (BIN2BCD w.current_state.seconds)) w
  ds1302_write_reg 0x8E 0x80 w

/-! Logic layer -/

/-- Model of `mod_timer(&my_timer, expires)`. -/
def mod_timer (expires : Nat) (w : World) : World :=
  { w with my_timer := expires, trace := Call.mod_timer expires :: w.trace }

/-- Model of `timer_callback`; `jiffies` is the value of the kernel tick counter
when the callback runs. -/
def timer_callback (K : Kernel) (jiffies : Nat) (w : World) : World :=
  let w :=
    if w.current_state.mode = 0 then
      let w := { w with current_state :=
        { w.current_state with seconds := wrap32 (w.current_state.seconds + 1) } }
      let w :=
        if w.current_state.seconds > 59 then
          get_rtc_time { w with current_state :=
            { w.current_state with
              seconds := 0
              minutes := wrap32 (w.current_state.minutes + 1) } }
        else w
      let w :=
        if w.current_state.minutes > 59 then
          { w with current_state :=
            { w.current_state with
              minutes := 0
              hours := wrap32 (w.current_state.hours + 1) } }
        else w
      if w.current_state.hours > 23 then
        { w with current_state := { w.current_state with hours := 0 } }
      else w
    else w
  mod_timer (ulong K (jiffies + K.msecs_to_jiffies 1000)) w

/-- Direction computed by `rotary_work_func` from the sampled level of the
quadrature partner line: `(dt_val != 1) ? 1 : -1`. -/
def rotary_change (dt_val : Int) : Int := if dt_val ≠ 1 then 1 else -1

/-- Model of `rotary_work_func`; `dt_val` is what
`gpio_get_value(GPIO_ROT_DT)` returns when the work item runs. -/
def rotary_work_func (dt_val : Int) (w : World) : World :=
  let change := rotary_change dt_val
  if w.current_state.mode = 1 then
    let h := wrap32 (w.current_state.hours + change)
    let h := if h > 23 then 0 else if h < 0 then 23 else h
    set_rtc_time { w with current_state := { w.current_state with hours := h } }
  else if w.current_state.mode = 2 then
    let m := wrap32 (w.current_state.minutes + change)
    let m := if m > 59 then 0 else if m < 0 then 59 else m
    set_rtc_time { w with current_state :=
      { w.current_state with minutes := m, seconds := 0 } }
  else w

/-- Model of `btn_work_func`. -/
def btn_work_func (w : World) : World :=
  let m := wrap32 (w.current_state.mode + 1)
  let m := if m > 2 then 0 else m
  { w with current_state := { w.current_state with mode := m } }

/-- Model of `rotary_irq_handler`; `jiffies` is the tick counter at the edge. -/
def rotary_irq_handler (K : Kernel) (jiffies : Nat) (w : World) : World :=
  let current_time := jiffies
  if time_after K current_time (ulong K (w.last_rotary_time + K.msecs_to_jiffies 150)) then
    { w with
      last_rotary_time := current_time
      trace := Call.schedule_rotary_work :: w.trace }
  else w

/-- Model of `button_irq_handler`; `jiffies` is the tick counter at the edge. -/
def button_irq_handler (K : Kernel) (jiffies : Nat) (w : World) : World :=
  let current_time := jiffies
  if time_after K current_time (ulong K (w.last_btn_time + K.msecs_to_jiffies 200)) then
    { w with
      last_btn_time := current_time
      trace := Call.schedule_btn_work :: w.trace }
  else w

/-! File operations -/

/-- Model of `clock_read`. `writable` tells whether `copy_to_user` of
`sizeof(clock_info_t)` bytes to the user buffer succeeds. The result is the
return value and what the user buffer received. -/
def clock_read (writable : Bool) (w : World) : Int × Option clock_info_t :=
  if writable then ((sizeof_clock_info_t : Int), some w.current_state)
  else (-EFAULT, none)

/-- Model of `clock_write`. `buf` is what `copy_from_user` of
`sizeof(clock_info_t)` bytes from the user pointer yields (`none` when the copy
faults), `count` is the length argument of the call (a `size_t`). The result is
the return value, `count` converted to the return type `ssize_t`, and the state
after the call. -/
def clock_write (K : Kernel) (buf : Option clock_info_t) (count : Nat) (w : World) :
    Int × World :=
  match buf with
  | none => (-EFAULT, w)
  | some new_time =>
    let w := { w with current_state :=
      { w.current_state with
        hours := new_time.hours
        minutes := new_time.minutes
        seconds := new_time.seconds } }
    (to_ssize_t K count, set_rtc_time w)

/-! Test harness: runs and observers -/

/-- Run of `n` firings of `timer_callback` against a fake register source: at
firing `k` (counted from 0) the register file holds `src k` and the tick counter
reads `clk k`. -/
def ticks (K : Kernel) (src : Nat → Nat → Nat) (clk : Nat → Nat) : Nat → World → World
  | 0, w => w
  | n + 1, w => timer_callback K (clk n) { ticks K src clk n w with regs := src n }

/-- Number of recorded occurrences of a call in the trace. -/
def calls (c : Call) (w : World) : Nat := w.trace.count c

/-- Whether a recorded call is a register write. -/
def Call.isWrite : Call → Bool
  | Call.ds1302_write_reg _ _ => true
  | _ => false

/-- Whether a recorded call is a register read. -/
def Call.isRead : Call → Bool
  | Call.ds1302_read_reg _ => true
  | _ => false

/-- Number of register write transactions recorded in the trace. -/
def reg_writes (w : World) : Nat := w.trace.countP Call.isWrite

/-- Number of register read transactions recorded in the trace. -/
def reg_reads (w : World) : Nat := w.trace.countP Call.isRead

/-- What the tick holds in `current_state` just before it resynchronises on a
carry: seconds reset to 0 and minutes incremented (possibly to 60), hours as
they were. -/
def tick_computed (c : clock_info_t) : clock_info_t :=
  { c with seconds := 0, minutes := c.minutes + 1 }

/-- Declared ranges of the numeric fields of `clock_info_t`. -/
def in_range (c : clock_info_t) : Prop :=
  0 ≤ c.hours ∧ c.hours ≤ 23 ∧ 0 ≤ c.minutes ∧ c.minutes ≤ 59 ∧
    0 ≤ c.seconds ∧ c.seconds ≤ 59

instance (c : clock_info_t) : Decidable (in_range c) := by
  unfold in_range; infer_instance

/-- Time of day reached `t` seconds after midnight, in mode Normal. -/
def time_of_secs (t : Nat) : clock_info_t :=
  { hours := ((t / 3600 % 24 : Nat) : Int)
    minutes := ((t / 60 % 60 : Nat) : Int)
    seconds := ((t % 60 : Nat) : Int)
    mode := 0 }

/-- The seconds, minutes and hours registers of the register file `regs` decode
(through `BCD2BIN`) to the seconds, minutes and hours of `c`. -/
def regs_decode (regs : Nat → Nat) (c : clock_info_t) : Prop :=
  BCD2BIN (regs 0x81 % 256) = c.seconds ∧ BCD2BIN (regs 0x83 % 256) = c.minutes ∧
    BCD2BIN (regs 0x85 % 256) = c.hours

instance (regs : Nat → Nat) (c : clock_info_t) : Decidable (regs_decode regs c) := by
  unfold regs_decode; infer_instance

/-- A static fake register file holding hours, minutes, seconds as packed
decimal bytes at the three read addresses (zero elsewhere). -/
def fake_regs (h m s : Nat) : Nat → Nat := fun cmd =>
  if cmd = 0x81 then s else if cmd = 0x83 then m else if cmd = 0x85 then h else 0

/-- A world with the given clock record, zeroed timestamps, the given register
file and an empty trace. -/
def mkWorld (c : clock_info_t) (regs : Nat → Nat) : World :=
  { current_state := c, last_rotary_time := 0, last_btn_time := 0, my_timer := 0,
    regs := regs, trace := [] }

/-- A 32-bit kernel with `HZ = 1000`: one jiffy per millisecond. -/
def kernel32 : Kernel := { BITS_PER_LONG := 32, msecs_to_jiffies := fun m => m }

/-- A 64-bit kernel with `HZ = 100`: ten milliseconds per jiffy. -/
def kernel64 : Kernel := { BITS_PER_LONG := 64, msecs_to_jiffies := fun m => (m + 9) / 10 }

/-- One second before the last second of the day, mode Normal, empty trace. -/
def w_235958 : World := mkWorld ⟨23, 59, 58, Normal⟩ (fake_regs 0 0 0)

/-- A state on a minute boundary, mode Normal, whose register file holds 12:34:56. -/
def w_000059 : World := mkWorld ⟨0, 0, 59, Normal⟩ (fake_regs 0x12 0x34 0x56)

/-- An in-range state with the given mode and a zeroed register file. -/
def w_mode (mode : Int) : World := mkWorld ⟨7, 59, 15, mode⟩ (fake_regs 0 0 0)

/-- An in-range state 01:02:03 in mode Normal with a zeroed register file. -/
def w_010203 : World := mkWorld ⟨1, 2, 3, Normal⟩ (fake_regs 0 0 0)

/-! Bit-level transport -/

/-- GPIO number of the DS1302 reset (chip enable) line. -/
def GPIO_RTC_RST : Nat := 16

/-- GPIO number of the DS1302 serial clock line. -/
def GPIO_RTC_CLK : Nat := 20

/-- GPIO number of the DS1302 data line. -/
def GPIO_RTC_DAT : Nat := 21

/-- GPIO number of phase A of the rotary encoder. -/
def GPIO_ROT_CLK : Nat := 5

/-- GPIO number of phase B of the rotary encoder. -/
def GPIO_ROT_DT : Nat := 6

/-- GPIO number of the push button of the rotary encoder. -/
def GPIO_ROT_SW : Nat := 13

/-- Major number of the character device. -/
def DEVICE_MAJOR : Nat := 230

/-- Pin-level operations of the bit-banged bus, listed in program order. -/
inductive PinOp where
  | gpio_direction_output (gpio value : Nat)
  | gpio_direction_input (gpio : Nat)
  | gpio_set_value (gpio value : Nat)
  | gpio_get_value (gpio : Nat)
  | udelay (usecs : Nat)
deriving DecidableEq

/-- The loop of `ds1302_write_byte` with `n` iterations left and `dat` still to
send: the low bit is put on the data line, the clock is pulsed high then low,
and `dat` (an `unsigned char`) is shifted right by one. -/
def ds1302_write_byte_loop : Nat → Nat → List PinOp
  | 0, _ => []
  | n + 1, dat =>
    [PinOp.gpio_set_value GPIO_RTC_DAT (dat &&& 0x01), PinOp.udelay 2,
      PinOp.gpio_set_value GPIO_RTC_CLK 1, PinOp.udelay 2,
      PinOp.gpio_set_value GPIO_RTC_CLK 0, PinOp.udelay 2] ++
      ds1302_write_byte_loop n ((dat >>> 1) % 256)

/-- Model of `ds1302_write_byte`: the pin operations it performs, in order. The
argument is converted to `unsigned char` at the call. -/
def ds1302_write_byte (dat : Nat) : List PinOp :=
  PinOp.gpio_direction_output GPIO_RTC_DAT 0 :: ds1302_write_byte_loop 8 (dat % 256)

/-- The loop of `ds1302_read_byte` with `n` iterations left, at sample number
`i`, with accumulator `dat`: `line i` is what `gpio_get_value(GPIO_RTC_DAT)`
returns at that sample. The result is the final `dat` and the pin operations. -/
def ds1302_read_byte_loop (line : Nat → Int) : Nat → Nat → Nat → Nat × List PinOp
  | 0, _, dat => (dat, [])
  | n + 1, i, dat =>
    let dat := dat >>> 1
    let dat := if line i ≠ 0 then (dat ||| 0x80) % 256 else dat
    let r := ds1302_read_byte_loop line n (i + 1) dat
    (r.1, [PinOp.gpio_get_value GPIO_RTC_DAT,
      PinOp.gpio_set_value GPIO_RTC_CLK 1, PinOp.udelay 2,
      PinOp.gpio_set_value GPIO_RTC_CLK 0, PinOp.udelay 2] ++ r.2)

/-- Model of `ds1302_read_byte`: the byte returned and the pin operations
performed, given the levels `line` seen on the data line at the eight samples. -/
def ds1302_read_byte (line : Nat → Int) : Nat × List PinOp :=
  let r := ds1302_read_byte_loop line 8 0 0
  (r.1, PinOp.gpio_direction_input GPIO_RTC_DAT :: r.2)

/-- Values written to one pin by `gpio_set_value`, in order. -/
def driven (gpio : Nat) : List PinOp → List Nat
  | [] => []
  | PinOp.gpio_set_value g v :: ops => if g = gpio then v :: driven gpio ops else driven gpio ops
  | _ :: ops => driven gpio ops

/-- The `gpio_set_value` operations of a list as pairs of pin and value, in
order, every other operation dropped. -/
def set_values : List PinOp → List (Nat × Nat)
  | [] => []
  | PinOp.gpio_set_value g v :: ops => (g, v) :: set_values ops
  | _ :: ops => set_values ops

/-- Bit `i` of a byte. -/
def bit_of (v i : Nat) : Nat := v / 2 ^ i % 2

/-! Module init -/

/-- Resources the module can hold. -/
inductive Resource where
  | chrdev (major : Nat)
  | gpio (pin : Nat)
  | irq (n : Int)
  | timer
deriving DecidableEq

/-- Return values of the kernel services called by `my_driver_init`: zero for
success, a negative error number for failure. -/
structure InitEnv where
  register_chrdev : Int
  gpio_request : Nat → Int
  gpio_to_irq : Nat → Int
  request_irq : Int → Int

/-- State of the loaded module: the driver variables, the resources it holds
(newest first), the two stored interrupt numbers and the pin directions it has
set (in program order). -/
structure Module where
  world : World
  held : List Resource
  irq_rotary_clk : Int
  irq_rotary_sw : Int
  pins : List PinOp

/-- A kernel service that returned `ret` leaves the resource `r` held by the
caller exactly when `ret` is zero. -/
def acquire (ret : Int) (r : Resource) (held : List Resource) : List Resource :=
  if ret = 0 then r :: held else held

/-- Model of `my_driver_init`, statement by statement: the character device,
the six GPIO requests with their direction settings, the initial
`get_rtc_time`, the timer armed one second ahead, the two interrupt requests.
No return value of any kernel service is looked at; the function has no release
call and ends in `return 0`. -/
def my_driver_init (E : InitEnv) (K : Kernel) (jiffies : Nat) (m : Module) : Int × Module :=
  let held := acquire E.register_chrdev (Resource.chrdev DEVICE_MAJOR) m.held
  let held := acquire (E.gpio_request GPIO_RTC_RST) (Resource.gpio GPIO_RTC_RST) held
  let pins := m.pins ++ [PinOp.gpio_direction_output GPIO_RTC_RST 0]
  let held := acquire (E.gpio_request GPIO_RTC_CLK) (Resource.gpio GPIO_RTC_CLK) held
  let pins := pins ++ [PinOp.gpio_direction_output GPIO_RTC_CLK 0]
  let held := acquire (E.gpio_request GPIO_RTC_DAT) (Resource.gpio GPIO_RTC_DAT) held
  let held := acquire (E.gpio_request GPIO_ROT_CLK) (Resource.gpio GPIO_ROT_CLK) held
  let pins := pins ++ [PinOp.gpio_direction_input GPIO_ROT_CLK]
  let held := acquire (E.gpio_request GPIO_ROT_DT) (Resource.gpio GPIO_ROT_DT) held
  let pins := pins ++ [PinOp.gpio_direction_input GPIO_ROT_DT]
  let held := acquire (E.gpio_request GPIO_ROT_SW) (Resource.gpio GPIO_ROT_SW) held
  let pins := pins ++ [PinOp.gpio_direction_input GPIO_ROT_SW]
  let world := get_rtc_time m.world
  let world := mod_timer (ulong K (jiffies + K.msecs_to_jiffies 1000)) world
  let held := Resource.timer :: held
  let irq_rotary_clk := E.gpio_to_irq GPIO_ROT_CLK
  let held := acquire (E.request_irq irq_rotary_clk) (Resource.irq irq_rotary_clk) held
  let irq_rotary_sw := E.gpio_to_irq GPIO_ROT_SW
  let held := acquire (E.request_irq irq_rotary_sw) (Resource.irq irq_rotary_sw) held
  (0, { world := world, held := held, irq_rotary_clk := irq_rotary_clk,
        irq_rotary_sw := irq_rotary_sw, pins := pins })

/-- The acquisition steps of `my_driver_init` in program order, each with the
return value the environment gives it and the resource it stands for. -/
def init_steps (E : InitEnv) : List (Int × Resource) :=
  [(E.register_chrdev, Resource.chrdev DEVICE_MAJOR),
    (E.gpio_request GPIO_RTC_RST, Resource.gpio GPIO_RTC_RST),
    (E.gpio_request GPIO_RTC_CLK, Resource.gpio GPIO_RTC_CLK),
    (E.gpio_request GPIO_RTC_DAT, Resource.gpio GPIO_RTC_DAT),
    (E.gpio_request GPIO_ROT_CLK, Resource.gpio GPIO_ROT_CLK),
    (E.gpio_request GPIO_ROT_DT, Resource.gpio GPIO_ROT_DT),
    (E.gpio_request GPIO_ROT_SW, Resource.gpio GPIO_ROT_SW),
    (E.request_irq (E.gpio_to_irq GPIO_ROT_CLK), Resource.irq (E.gpio_to_irq GPIO_ROT_CLK)),
    (E.request_irq (E.gpio_to_irq GPIO_ROT_SW), Resource.irq (E.gpio_to_irq GPIO_ROT_SW))]

/-- A module that holds nothing yet, over a given world. -/
def unloaded (w : World) : Module :=
  { world := w, held := [], irq_rotary_clk := 0, irq_rotary_sw := 0, pins := [] }

/-- Error number `EBUSY`. -/
def EBUSY : Int := 16

/-- An environment in which the request of the DS1302 clock line fails with
`-EBUSY` (the pin is claimed by another driver) and every other service
succeeds; interrupt numbers are the GPIO number plus 160. -/
def env_clk_busy : InitEnv :=
  { register_chrdev := 0
    gpio_request := fun pin => if pin = GPIO_RTC_CLK then -EBUSY else 0
    gpio_to_irq := fun pin => (pin : Int) + 160
    request_irq := fun _ => 0 }

/-- An environment in which every service succeeds. -/
def env_all_ok : InitEnv :=
  { register_chrdev := 0
    gpio_request := fun _ => 0
    gpio_to_irq := fun pin => (pin : Int) + 160
    request_irq := fun _ => 0 }

/-- A state on a minute boundary whose seconds register has the clock-halt
flag (bit 7) set: the registers hold `0x80`, `0x34`, `0x12`. -/
def w_halted : World := mkWorld ⟨12, 34, 59, Normal⟩ (fake_regs 0x12 0x34 0x80)

/-- A world whose timer was armed for jiffy 1000. -/
def w_armed_1000 : World := { w_010203 with my_timer := 1000 }

/-! Arithmetic lemmas -/

theorem wrap32_eq (x : Int) (h1 : -2147483648 ≤ x) (h2 : x < 2147483648) : wrap32 x = x := by
  unfold wrap32; omega

theorem BCD2BIN_expand_self (v : Nat) : BCD2BIN_expand v v = BCD2BIN v := rfl

theorem BCD2BIN_eq (v : Nat) : BCD2BIN v = ((v % 16 + v / 16 * 10 : Nat) : Int) := by
  unfold BCD2BIN BCD2BIN_expand
  have h1 : v &&& 0x0f = v % 16 := Nat.and_pow_two_sub_one_eq_mod v 4
  have h2 : v >>> 4 = v / 16 := Nat.shiftRight_eq_div_pow v 4
  rw [h1, h2]

theorem BCD2BIN_nonneg (v : Nat) : 0 ≤ BCD2BIN v := by
  rw [BCD2BIN_eq]; exact Int.natCast_nonneg _

theorem rotary_change_cases (dt_val : Int) :
    rotary_change dt_val = 1 ∨ rotary_change dt_val = -1 := by
  unfold rotary_change; split <;> simp

/-- Inside the hold-off window `time_after` is false: an edge at `t2`, less than
`d` jiffies after the accepted edge at `t1`, is not after `t1 + d`. -/
theorem time_after_inside (K : Kernel) (t1 t2 d : Nat) (h12 : t1 ≤ t2)
    (hd : d < 2 ^ (K.BITS_PER_LONG - 1)) (hlt : t2 - t1 < d) :
    time_after K t2 (ulong K (t1 + d)) = false := by
  unfold time_after ulong
  rw [decide_eq_false_iff_not, not_le]
  have hH : (2 : Int) ^ (K.BITS_PER_LONG - 1) ≤ 2 ^ K.BITS_PER_LONG :=
    pow_le_pow_right₀ (by norm_num) (Nat.sub_le _ _)
  have hdI : (d : Int) < 2 ^ (K.BITS_PER_LONG - 1) := by exact_mod_cast hd
  have e : (((t1 + d) % 2 ^ K.BITS_PER_LONG : Nat) : Int) - (t2 : Int) ≡
      ((t1 : Int) + d - t2) [ZMOD 2 ^ K.BITS_PER_LONG] := by
    apply Int.ModEq.sub_right
    push_cast
    exact Int.mod_modEq _ _
  rw [e.eq]
  have hx0 : (0 : Int) ≤ (t1 : Int) + d - t2 := by omega
  have hx1 : (t1 : Int) + d - t2 < 2 ^ K.BITS_PER_LONG := by omega
  rw [Int.emod_eq_of_lt hx0 hx1]
  omega

/-- Beyond the hold-off window, and up to half the range of the tick counter
beyond it, `time_after` is true. -/
theorem time_after_outside (K : Kernel) (t1 t2 d : Nat) (hbits : 1 ≤ K.BITS_PER_LONG)
    (h12 : t1 ≤ t2) (hgt : d < t2 - t1) (hle : t2 - t1 ≤ d + 2 ^ (K.BITS_PER_LONG - 1)) :
    time_after K t2 (ulong K (t1 + d)) = true := by
  unfold time_after ulong
  rw [decide_eq_true_iff]
  have hPH : (2 : Int) ^ K.BITS_PER_LONG = 2 * 2 ^ (K.BITS_PER_LONG - 1) := by
    rw [← pow_succ']
    congr 1
    omega
  have hHpos : (0 : Int) < 2 ^ (K.BITS_PER_LONG - 1) := by positivity
  have hleI : ((t2 : Int) - t1) ≤ d + 2 ^ (K.BITS_PER_LONG - 1) := by
    have hc : ((t2 - t1 : Nat) : Int) ≤ ((d + 2 ^ (K.BITS_PER_LONG - 1) : Nat) : Int) := by
      exact_mod_cast hle
    push_cast at hc
    omega
  have e1 : (((t1 + d) % 2 ^ K.BITS_PER_LONG : Nat) : Int) - (t2 : Int) ≡
      ((t1 : Int) + d - t2) [ZMOD 2 ^ K.BITS_PER_LONG] := by
    apply Int.ModEq.sub_right
    push_cast
    exact Int.mod_modEq _ _
  have e2 : ((t1 : Int) + d - t2) ≡
      ((t1 : Int) + d - t2 + 2 ^ K.BITS_PER_LONG) [ZMOD 2 ^ K.BITS_PER_LONG] := by
    have hs := Int.add_mul_emod_self (a := (t1 : Int) + d - t2) (b := 1)
      (c := 2 ^ K.BITS_PER_LONG)
    unfold Int.ModEq
    rw [← hs, one_mul]
  rw [(e1.trans e2).eq]
  have hx0 : (0 : Int) ≤ (t1 : Int) + d - t2 + 2 ^ K.BITS_PER_LONG := by omega
  have hx1 : (t1 : Int) + d - t2 + 2 ^ K.BITS_PER_LONG < 2 ^ K.BITS_PER_LONG := by omega
  rw [Int.emod_eq_of_lt hx0 hx1]
  omega

/-! Register access -/

theorem set_rtc_time_current_state (w : World) :
    (set_rtc_time w).current_state = w.current_state := rfl

theorem set_rtc_time_trace (w : World) :
    (set_rtc_time w).trace =
      Call.ds1302_write_reg 0x8E 0x80 ::
        Call.ds1302_write_reg 0x80 (u8 (BIN2BCD w.current_state.seconds)) ::
        Call.ds1302_write_reg 0x82 (u8 (BIN2BCD w.current_state.minutes)) ::
        Call.ds1302_write_reg 0x84 (u8 (BIN2BCD w.current_state.hours)) ::
        Call.ds1302_write_reg 0x8E 0x00 :: Call.set_rtc_time :: w.trace := rfl

theorem set_rtc_time_reg_writes (w : World) :
    reg_writes (set_rtc_time w) = reg_writes w + 5 := by
  simp [reg_writes, set_rtc_time_trace, Call.isWrite]

/-! The tick -/

/-- A tick in mode Normal that does not carry: only `seconds` moves, and the
only recorded call is the re-arming of the timer. -/
theorem timer_callback_no_carry (K : Kernel) (j : Nat) (w : World)
    (hmode : w.current_state.mode = 0)
    (hs0 : 0 ≤ w.current_state.seconds) (hs : w.current_state.seconds < 59)
    (hmin : w.current_state.minutes ≤ 59) (hh : w.current_state.hours ≤ 23) :
    (timer_callback K j w).current_state =
        { w.current_state with seconds := w.current_state.seconds + 1 } ∧
      (timer_callback K j w).trace =
        Call.mod_timer (ulong K (j + K.msecs_to_jiffies 1000)) :: w.trace := by
  have hw : wrap32 (w.current_state.seconds + 1) = w.current_state.seconds + 1 :=
    wrap32_eq _ (by omega) (by omega)
  have h1 : ¬ (w.current_state.seconds + 1 > 59) := by omega
  have h2 : ¬ (w.current_state.minutes > 59) := by omega
  have h3 : ¬ (w.current_state.hours > 23) := by omega
  simp [timer_callback, mod_timer, hmode, hw, h1, h2, h3]

/-- A tick in mode Normal that carries, against registers that decode to an
in-range time `c`: the three fields are taken from the registers, and
`get_rtc_time` is recorded once, with its six register reads. -/
theorem timer_callback_carry (K : Kernel) (j : Nat) (w : World) (c : clock_info_t)
    (hmode : w.current_state.mode = 0) (hs : w.current_state.seconds = 59)
    (hd : regs_decode w.regs c) (hcm : c.minutes ≤ 59) (hch : c.hours ≤ 23) :
    (timer_callback K j w).current_state = { c with mode := 0 } ∧
      (timer_callback K j w).trace =
        Call.mod_timer (ulong K (j + K.msecs_to_jiffies 1000)) ::
          Call.ds1302_read_reg 0x85 :: Call.ds1302_read_reg 0x85 ::
          Call.ds1302_read_reg 0x83 :: Call.ds1302_read_reg 0x83 ::
          Call.ds1302_read_reg 0x81 :: Call.ds1302_read_reg 0x81 ::
          Call.get_rtc_time :: w.trace := by
  obtain ⟨d1, d2, d3⟩ := hd
  have h2 : ¬ (c.minutes > 59) := by omega
  have h3 : ¬ (c.hours > 23) := by omega
  simp [timer_callback, mod_timer, get_rtc_time, ds1302_read_reg, BCD2BIN_expand_self, hmode, hs,
    wrap32, d1, d2, d3, h2, h3]

theorem BCD2BIN_le (v : Nat) : BCD2BIN (v % 256) ≤ 165 := by
  rw [BCD2BIN_eq]
  have h : v % 256 % 16 + v % 256 / 16 * 10 ≤ 165 := by omega
  exact_mod_cast h

/-- A tick in mode Normal that carries, against any register file: seconds are
what the seconds register decodes to; minutes above 59 in the register become 0
and carry into the hours; hours above 23 become 0; `get_rtc_time` is recorded
once, with its six register reads. -/
theorem timer_callback_carry_any (K : Kernel) (j : Nat) (w : World)
    (hmode : w.current_state.mode = 0) (hs : w.current_state.seconds = 59) :
    (timer_callback K j w).current_state =
      { hours :=
          if BCD2BIN (w.regs 0x83 % 256) > 59 then
            (if BCD2BIN (w.regs 0x85 % 256) + 1 > 23 then 0
              else BCD2BIN (w.regs 0x85 % 256) + 1)
          else (if BCD2BIN (w.regs 0x85 % 256) > 23 then 0 else BCD2BIN (w.regs 0x85 % 256))
        minutes := if BCD2BIN (w.regs 0x83 % 256) > 59 then 0 else BCD2BIN (w.regs 0x83 % 256)
        seconds := BCD2BIN (w.regs 0x81 % 256)
        mode := 0 } ∧
      (timer_callback K j w).trace =
        Call.mod_timer (ulong K (j + K.msecs_to_jiffies 1000)) ::
          Call.ds1302_read_reg 0x85 :: Call.ds1302_read_reg 0x85 ::
          Call.ds1302_read_reg 0x83 :: Call.ds1302_read_reg 0x83 ::
          Call.ds1302_read_reg 0x81 :: Call.ds1302_read_reg 0x81 ::
          Call.get_rtc_time :: w.trace := by
  have n3 := BCD2BIN_nonneg (w.regs 0x85 % 256)
  have l3 := BCD2BIN_le (w.regs 0x85)
  have hw : wrap32 (BCD2BIN (w.regs 0x85 % 256) + 1) = BCD2BIN (w.regs 0x85 % 256) + 1 :=
    wrap32_eq _ (by omega) (by omega)
  have hw60 : wrap32 (59 + 1) = 60 := by decide
  simp only [timer_callback, mod_timer, get_rtc_time, ds1302_read_reg,
    BCD2BIN_expand_self, hmode, hs, hw, hw60]
  split_ifs <;> simp_all

theorem ticks_succ (K : Kernel) (src : Nat → Nat → Nat) (clk : Nat → Nat) (n : Nat) (w : World) :
    ticks K src clk (n + 1) w =
      timer_callback K (clk n) { ticks K src clk n w with regs := src n } := rfl

theorem time_of_secs_start (h m s : Nat) (hh : h ≤ 23) (hm : m ≤ 59) (hs : s ≤ 59) :
    time_of_secs (h * 3600 + m * 60 + s) = ⟨(h : Int), (m : Int), (s : Int), 0⟩ := by
  simp only [time_of_secs]
  congr 1 <;> congr 1 <;> omega

/-- One more firing keeps the in-memory clock on the time of day, provided that
whenever this firing carries the register source holds either that time of
day or what the tick itself computed before the resynchronisation. -/
theorem ticks_step (K : Kernel) (src : Nat → Nat → Nat) (clk : Nat → Nat) (w : World)
    (T n : Nat)
    (hcs : (ticks K src clk n w).current_state = time_of_secs (T + n))
    (hsync : (T + n + 1) % 60 = 0 →
      regs_decode (src n) (time_of_secs (T + n + 1)) ∨
        regs_decode (src n) (tick_computed (time_of_secs (T + n)))) :
    (ticks K src clk (n + 1) w).current_state = time_of_secs (T + n + 1) ∧
      calls Call.get_rtc_time (ticks K src clk (n + 1) w) =
        calls Call.get_rtc_time (ticks K src clk n w) +
          (if (T + n + 1) % 60 = 0 then 1 else 0) := by
  rw [ticks_succ]
  set v := ticks K src clk n w with hv
  by_cases hc : (T + n + 1) % 60 = 0
  · have hmode : ({ v with regs := src n } : World).current_state.mode = 0 := by
      simp [hcs, time_of_secs]
    have hsec : ({ v with regs := src n } : World).current_state.seconds = 59 := by
      simp only [hcs, time_of_secs]; omega
    have hcalls : calls Call.get_rtc_time (timer_callback K (clk n) { v with regs := src n }) =
        calls Call.get_rtc_time v + 1 := by
      simp [calls, (timer_callback_carry_any K (clk n) { v with regs := src n } hmode hsec).2]
    refine ⟨?_, ?_⟩
    · rcases hsync hc with hd | hd
      · obtain ⟨e1, _⟩ := timer_callback_carry K (clk n) { v with regs := src n }
          (time_of_secs (T + n + 1)) hmode hsec hd
          (by simp only [time_of_secs]; omega) (by simp only [time_of_secs]; omega)
        rw [e1]; simp [time_of_secs]
      · rw [(timer_callback_carry_any K (clk n) { v with regs := src n } hmode hsec).1]
        obtain ⟨d1, d2, d3⟩ := hd
        have d1' : BCD2BIN (src n 0x81 % 256) = 0 := d1
        have d2' : BCD2BIN (src n 0x83 % 256) = (((T + n) / 60 % 60 : Nat) : Int) + 1 := d2
        have d3' : BCD2BIN (src n 0x85 % 256) = (((T + n) / 3600 % 24 : Nat) : Int) := d3
        show clock_info_t.mk _ _ _ _ = _
        simp only [d1', d2', d3', time_of_secs]
        congr 1
        · split_ifs <;> omega
        · split_ifs <;> omega
        · omega
    · rw [hcalls]; simp [hc]
  · obtain ⟨e1, e2⟩ := timer_callback_no_carry K (clk n) { v with regs := src n }
      (by simp [hcs, time_of_secs])
      (by simp only [hcs, time_of_secs]; omega)
      (by simp only [hcs, time_of_secs]; omega)
      (by simp only [hcs, time_of_secs]; omega)
      (by simp only [hcs, time_of_secs]; omega)
    refine ⟨?_, ?_⟩
    · rw [e1]
      simp only [hcs, time_of_secs]
      congr 1 <;> omega
    · simp [calls, e2, hc]

theorem ticks_state (K : Kernel) (src : Nat → Nat → Nat) (clk : Nat → Nat) (w : World)
    (T N : Nat) (hw : w.current_state = time_of_secs T)
    (hsync : ∀ k, k < N → (T + k + 1) % 60 = 0 →
      regs_decode (src k) (time_of_secs (T + k + 1)) ∨
        regs_decode (src k) (tick_computed (time_of_secs (T + k)))) :
    ∀ n, n ≤ N → (ticks K src clk n w).current_state = time_of_secs (T + n) := by
  intro n
  induction n with
  | zero => intro _; simpa [ticks] using hw
  | succ n ih =>
    intro hn
    exact (ticks_step K src clk w T n (ih (by omega)) (hsync n (by omega))).1

/-- Claim C1, as amended. From an in-range state in mode Normal, `N` firings of
`timer_callback` against a register source that, on every firing that carries
seconds into minutes, holds either the time of day reached by that firing or
what the tick itself computed before resynchronising (seconds 0, minutes one
more, possibly 60, hours as they were, so that the minute and hour carries of
the tick run), leave `seconds = (s + N) mod 60`, minutes and hours carried by
the 60/24 rule, mode Normal; each firing records `get_rtc_time` exactly once if
it carries and not at all otherwise, `(s + N) / 60` times in total. -/
theorem timer_callback_ticks_in_step (K : Kernel) (src : Nat → Nat → Nat) (clk : Nat → Nat)
    (w : World) (h m s N : Nat) (hh : h ≤ 23) (hm : m ≤ 59) (hs : s ≤ 59)
    (hw : w.current_state = ⟨(h : Int), (m : Int), (s : Int), Normal⟩)
    (hsync : ∀ k, k < N → (s + k + 1) % 60 = 0 →
      regs_decode (src k) (time_of_secs (h * 3600 + m * 60 + s + k + 1)) ∨
        regs_decode (src k) (tick_computed (time_of_secs (h * 3600 + m * 60 + s + k)))) :
    (ticks K src clk N w).current_state.seconds = (((s + N) % 60 : Nat) : Int) ∧
      (ticks K src clk N w).current_state.minutes = (((m * 60 + s + N) / 60 % 60 : Nat) : Int) ∧
      (ticks K src clk N w).current_state.hours =
        (((h * 3600 + m * 60 + s + N) / 3600 % 24 : Nat) : Int) ∧
      (ticks K src clk N w).current_state.mode = Normal ∧
      (∀ k, k < N → calls Call.get_rtc_time (ticks K src clk (k + 1) w) =
        calls Call.get_rtc_time (ticks K src clk k w) +
          (if (s + k + 1) % 60 = 0 then 1 else 0)) ∧
      calls Call.get_rtc_time (ticks K src clk N w) =
        calls Call.get_rtc_time w + (s + N) / 60 := by
  have hw0 : w.current_state = time_of_secs (h * 3600 + m * 60 + s) := by
    rw [time_of_secs_start h m s hh hm hs]; exact hw
  have hsync0 : ∀ k, k < N → (h * 3600 + m * 60 + s + k + 1) % 60 = 0 →
      regs_decode (src k) (time_of_secs (h * 3600 + m * 60 + s + k + 1)) ∨
        regs_decode (src k) (tick_computed (time_of_secs (h * 3600 + m * 60 + s + k))) := by
    intro k hk hc
    exact hsync k hk (by omega)
  have hst := ticks_state K src clk w (h * 3600 + m * 60 + s) N hw0 hsync0
  have hstep : ∀ k, k < N → calls Call.get_rtc_time (ticks K src clk (k + 1) w) =
        calls Call.get_rtc_time (ticks K src clk k w) +
          (if (s + k + 1) % 60 = 0 then 1 else 0) := by
    intro k hk
    have h2 := (ticks_step K src clk w (h * 3600 + m * 60 + s) k (hst k (by omega))
      (hsync0 k hk)).2
    rw [h2]
    by_cases hc : (s + k + 1) % 60 = 0
    · have hc2 : (h * 3600 + m * 60 + s + k + 1) % 60 = 0 := by omega
      simp [hc, hc2]
    · have hc2 : ¬ (h * 3600 + m * 60 + s + k + 1) % 60 = 0 := by omega
      simp [hc, hc2]
  have htot : ∀ n, n ≤ N → calls Call.get_rtc_time (ticks K src clk n w) =
        calls Call.get_rtc_time w + (s + n) / 60 := by
    intro n
    induction n with
    | zero =>
      intro _
      have hz : s / 60 = 0 := by omega
      simp [ticks, hz]
    | succ n ih =>
      intro hn
      rw [hstep n (by omega), ih (by omega)]
      by_cases hc : (s + n + 1) % 60 = 0
      · simp only [hc, if_true]; omega
      · simp only [hc, if_false]; omega
  have hN := hst N (Nat.le_refl N)
  refine ⟨?_, ?_, ?_, ?_, hstep, htot N (Nat.le_refl N)⟩
  · rw [hN]; simp only [time_of_secs]; congr 1; omega
  · rw [hN]; simp only [time_of_secs]; congr 1; omega
  · rw [hN]; rfl
  · rw [hN]; rfl

/-- Witness of claim C1 as amended: three firings from 23:59:58 against a
register source holding hours 23, minutes 60, seconds 0 (what the tick computed
before resynchronising), so that the minute carry and the hour carry of the
tick both run. -/
theorem timer_callback_ticks_in_step_witness :
    ((23 : Nat) ≤ 23 ∧ (59 : Nat) ≤ 59 ∧ (58 : Nat) ≤ 59 ∧
      w_235958.current_state =
        ⟨((23 : Nat) : Int), ((59 : Nat) : Int), ((58 : Nat) : Int), Normal⟩ ∧
      (∀ k, k < 3 → (58 + k + 1) % 60 = 0 →
        regs_decode ((fun _ => fake_regs 0x23 0x60 0) k)
            (time_of_secs (23 * 3600 + 59 * 60 + 58 + k + 1)) ∨
          regs_decode ((fun _ => fake_regs 0x23 0x60 0) k)
            (tick_computed (time_of_secs (23 * 3600 + 59 * 60 + 58 + k))))) ∧
    ((ticks kernel32 (fun _ => fake_regs 0x23 0x60 0) (fun k => 1000 * k) 3
        w_235958).current_state.seconds = (((58 + 3) % 60 : Nat) : Int) ∧
      (ticks kernel32 (fun _ => fake_regs 0x23 0x60 0) (fun k => 1000 * k) 3
        w_235958).current_state.minutes = (((59 * 60 + 58 + 3) / 60 % 60 : Nat) : Int) ∧
      (ticks kernel32 (fun _ => fake_regs 0x23 0x60 0) (fun k => 1000 * k) 3
        w_235958).current_state.hours =
          (((23 * 3600 + 59 * 60 + 58 + 3) / 3600 % 24 : Nat) : Int) ∧
      calls Call.get_rtc_time
        (ticks kernel32 (fun _ => fake_regs 0x23 0x60 0) (fun k => 1000 * k) 3 w_235958) =
        calls Call.get_rtc_time w_235958 + (58 + 3) / 60) :=
  ⟨⟨by decide, by decide, by decide, rfl, by decide⟩,
    (timer_callback_ticks_in_step kernel32 (fun _ => fake_regs 0x23 0x60 0) (fun k => 1000 * k)
      w_235958 23 59 58 3 (by decide) (by decide) (by decide) rfl (by decide)).1,
    (timer_callback_ticks_in_step kernel32 (fun _ => fake_regs 0x23 0x60 0) (fun k => 1000 * k)
      w_235958 23 59 58 3 (by decide) (by decide) (by decide) rfl (by decide)).2.1,
    (timer_callback_ticks_in_step kernel32 (fun _ => fake_regs 0x23 0x60 0) (fun k => 1000 * k)
      w_235958 23 59 58 3 (by decide) (by decide) (by decide) rfl (by decide)).2.2.1,
    (timer_callback_ticks_in_step kernel32 (fun _ => fake_regs 0x23 0x60 0) (fun k => 1000 * k)
      w_235958 23 59 58 3 (by decide) (by decide) (by decide) rfl (by decide)).2.2.2.2.2⟩

/-- Counterexample to claim C1 as stated: from 00:00:59 in mode Normal, one
firing against a register source holding 12:34:56 leaves `seconds = 56`, not
`(59 + 1) mod 60 = 0`. -/
theorem timer_callback_ticks_resync_overwrites :
    in_range w_000059.current_state ∧ w_000059.current_state.mode = Normal ∧
      (ticks kernel32 (fun _ => fake_regs 0x12 0x34 0x56) (fun k => 1000 * k) 1
        w_000059).current_state.seconds = 56 ∧
      ¬ ((ticks kernel32 (fun _ => fake_regs 0x12 0x34 0x56) (fun k => 1000 * k) 1
        w_000059).current_state.seconds = (((59 + 1) % 60 : Nat) : Int)) := by
  decide

/-- Claim C2, as amended. From 23:59:58 in mode Normal, three firings of
`timer_callback` end at 00:00:01 with `get_rtc_time` recorded exactly once,
provided the registers read by the second firing decode to 00:00:00 (the
hardware has rolled over) or to hours 23, minutes 60, seconds 0 (the values
the tick itself computed, so that both carries run in the code). -/
theorem timer_callback_midnight_rollover (K : Kernel) (src : Nat → Nat → Nat) (clk : Nat → Nat)
    (w : World) (hw : w.current_state = ⟨23, 59, 58, Normal⟩)
    (hsrc : regs_decode (src 1) ⟨0, 0, 0, Normal⟩ ∨ regs_decode (src 1) ⟨23, 60, 0, Normal⟩) :
    (ticks K src clk 3 w).current_state = ⟨0, 0, 1, Normal⟩ ∧
      calls Call.get_rtc_time (ticks K src clk 3 w) = calls Call.get_rtc_time w + 1 := by
  rcases hsrc with ⟨d1, d2, d3⟩ | ⟨d1, d2, d3⟩ <;>
    simp [ticks, timer_callback, mod_timer, get_rtc_time, ds1302_read_reg, BCD2BIN_expand_self,
      calls, hw, wrap32, d1, d2, d3]

/-- Witness of claim C2 as amended: the register source holds hours 23,
minutes 60, seconds 0, so the minute and the hour both carry in the code. -/
theorem timer_callback_midnight_rollover_witness :
    (w_235958.current_state = ⟨23, 59, 58, Normal⟩ ∧
      (regs_decode ((fun _ => fake_regs 0x23 0x60 0) 1) ⟨0, 0, 0, Normal⟩ ∨
        regs_decode ((fun _ => fake_regs 0x23 0x60 0) 1) ⟨23, 60, 0, Normal⟩)) ∧
    ((ticks kernel32 (fun _ => fake_regs 0x23 0x60 0) (fun k => 1000 * k) 3
        w_235958).current_state = ⟨0, 0, 1, Normal⟩ ∧
      calls Call.get_rtc_time (ticks kernel32 (fun _ => fake_regs 0x23 0x60 0)
        (fun k => 1000 * k) 3 w_235958) = calls Call.get_rtc_time w_235958 + 1) :=
  ⟨⟨rfl, by decide⟩,
    timer_callback_midnight_rollover kernel32 (fun _ => fake_regs 0x23 0x60 0)
      (fun k => 1000 * k) w_235958 rfl (by decide)⟩

/-- Counterexample to claim C2 as stated: against a register source that stays
at 23:59:58, the three firings from 23:59:58 end at 23:59:59. -/
theorem timer_callback_midnight_frozen_source :
    (ticks kernel32 (fun _ => fake_regs 0x23 0x59 0x58) (fun k => 1000 * k) 3
        w_235958).current_state = ⟨23, 59, 59, Normal⟩ ∧
      ¬ ((ticks kernel32 (fun _ => fake_regs 0x23 0x59 0x58) (fun k => 1000 * k) 3
            w_235958).current_state.seconds = 1 ∧
          (ticks kernel32 (fun _ => fake_regs 0x23 0x59 0x58) (fun k => 1000 * k) 3
            w_235958).current_state.minutes = 0 ∧
          (ticks kernel32 (fun _ => fake_regs 0x23 0x59 0x58) (fun k => 1000 * k) 3
            w_235958).current_state.hours = 0 ∧
          calls Call.get_rtc_time (ticks kernel32 (fun _ => fake_regs 0x23 0x59 0x58)
            (fun k => 1000 * k) 3 w_235958) = calls Call.get_rtc_time w_235958 + 1) := by
  decide

/-! The rotary and button handlers -/

theorem rotary_work_func_mode1 (dt_val : Int) (w : World) (h1 : w.current_state.mode = 1) :
    rotary_work_func dt_val w =
      set_rtc_time { w with current_state :=
        { w.current_state with
          hours :=
            if wrap32 (w.current_state.hours + rotary_change dt_val) > 23 then 0
            else if wrap32 (w.current_state.hours + rotary_change dt_val) < 0 then 23
            else wrap32 (w.current_state.hours + rotary_change dt_val) } } := by
  unfold rotary_work_func
  rw [if_pos h1]

theorem rotary_work_func_mode2 (dt_val : Int) (w : World) (h2 : w.current_state.mode = 2) :
    rotary_work_func dt_val w =
      set_rtc_time { w with current_state :=
        { w.current_state with
          minutes :=
            if wrap32 (w.current_state.minutes + rotary_change dt_val) > 59 then 0
            else if wrap32 (w.current_state.minutes + rotary_change dt_val) < 0 then 59
            else wrap32 (w.current_state.minutes + rotary_change dt_val)
          seconds := 0 } } := by
  have h1 : ¬ w.current_state.mode = 1 := by rw [h2]; decide
  unfold rotary_work_func
  rw [if_neg h1, if_pos h2]

theorem rotary_work_func_other (dt_val : Int) (w : World) (h1 : ¬ w.current_state.mode = 1)
    (h2 : ¬ w.current_state.mode = 2) : rotary_work_func dt_val w = w := by
  unfold rotary_work_func
  rw [if_neg h1, if_neg h2]

/-- The wrap of the hour edit: for an hour in range and a step of one either
way, the two comparisons of the source compute the remainder modulo 24. -/
theorem hour_wrap (x d : Int) (h0 : 0 ≤ x) (h23 : x ≤ 23) (hd : d = 1 ∨ d = -1) :
    (if wrap32 (x + d) > 23 then 0 else if wrap32 (x + d) < 0 then 23 else wrap32 (x + d)) =
      (x + d) % 24 := by
  rcases hd with hd | hd <;> rw [hd] <;> rw [wrap32_eq _ (by omega) (by omega)] <;>
    split_ifs <;> omega

/-- The wrap of the minute edit: for a minute in range and a step of one either
way, the two comparisons of the source compute the remainder modulo 60. -/
theorem minute_wrap (x d : Int) (h0 : 0 ≤ x) (h59 : x ≤ 59) (hd : d = 1 ∨ d = -1) :
    (if wrap32 (x + d) > 59 then 0 else if wrap32 (x + d) < 0 then 59 else wrap32 (x + d)) =
      (x + d) % 60 := by
  rcases hd with hd | hd <;> rw [hd] <;> rw [wrap32_eq _ (by omega) (by omega)] <;>
    split_ifs <;> omega

/-- Claim C5. In mode Normal a rotary event, whatever the level of the partner
line, leaves the whole state as it was: hours, minutes, seconds and mode are
unchanged, and no register write and no `set_rtc_time` call is recorded. -/
theorem rotary_work_func_normal (dt_val : Int) (w : World)
    (hmode : w.current_state.mode = Normal) :
    rotary_work_func dt_val w = w ∧
      (rotary_work_func dt_val w).current_state.hours = w.current_state.hours ∧
      (rotary_work_func dt_val w).current_state.minutes = w.current_state.minutes ∧
      (rotary_work_func dt_val w).current_state.seconds = w.current_state.seconds ∧
      (rotary_work_func dt_val w).current_state.mode = w.current_state.mode ∧
      reg_writes (rotary_work_func dt_val w) = reg_writes w ∧
      calls Call.set_rtc_time (rotary_work_func dt_val w) = calls Call.set_rtc_time w := by
  have hm : w.current_state.mode = 0 := hmode
  have e : rotary_work_func dt_val w = w :=
    rotary_work_func_other dt_val w (by rw [hm]; decide) (by rw [hm]; decide)
  rw [e]
  exact ⟨rfl, rfl, rfl, rfl, rfl, rfl, rfl⟩

/-- Witness of claim C5. -/
theorem rotary_work_func_normal_witness :
    (w_mode Normal).current_state.mode = Normal ∧
      rotary_work_func 1 (w_mode Normal) = w_mode Normal ∧
      reg_writes (rotary_work_func 0 (w_mode Normal)) = reg_writes (w_mode Normal) :=
  ⟨rfl, (rotary_work_func_normal 1 (w_mode Normal) rfl).1,
    (rotary_work_func_normal 0 (w_mode Normal) rfl).2.2.2.2.2.1⟩

/-- Claim C6. From each of the three modes one button event moves to the
successor in the cycle Normal, SetHour, SetMinute, Normal, leaving hours,
minutes and seconds unchanged, and three button events restore the record. -/
theorem btn_work_func_cycle (w : World)
    (hmode : w.current_state.mode = Normal ∨ w.current_state.mode = SetHour ∨
      w.current_state.mode = SetMinute) :
    (w.current_state.mode = Normal → (btn_work_func w).current_state.mode = SetHour) ∧
      (w.current_state.mode = SetHour → (btn_work_func w).current_state.mode = SetMinute) ∧
      (w.current_state.mode = SetMinute → (btn_work_func w).current_state.mode = Normal) ∧
      (btn_work_func w).current_state.hours = w.current_state.hours ∧
      (btn_work_func w).current_state.minutes = w.current_state.minutes ∧
      (btn_work_func w).current_state.seconds = w.current_state.seconds ∧
      (btn_work_func (btn_work_func (btn_work_func w))).current_state = w.current_state := by
  have m0 : ∀ v : World, v.current_state.mode = 0 → (btn_work_func v).current_state.mode = 1 := by
    intro v h
    show (if wrap32 (v.current_state.mode + 1) > 2 then 0
      else wrap32 (v.current_state.mode + 1)) = 1
    rw [h]; decide
  have m1 : ∀ v : World, v.current_state.mode = 1 → (btn_work_func v).current_state.mode = 2 := by
    intro v h
    show (if wrap32 (v.current_state.mode + 1) > 2 then 0
      else wrap32 (v.current_state.mode + 1)) = 2
    rw [h]; decide
  have m2 : ∀ v : World, v.current_state.mode = 2 → (btn_work_func v).current_state.mode = 0 := by
    intro v h
    show (if wrap32 (v.current_state.mode + 1) > 2 then 0
      else wrap32 (v.current_state.mode + 1)) = 0
    rw [h]; decide
  have frame : (btn_work_func (btn_work_func (btn_work_func w))).current_state =
      { w.current_state with
        mode := (btn_work_func (btn_work_func (btn_work_func w))).current_state.mode } := rfl
  refine ⟨m0 w, m1 w, m2 w, rfl, rfl, rfl, ?_⟩
  have hm3 : (btn_work_func (btn_work_func (btn_work_func w))).current_state.mode =
      w.current_state.mode := by
    rcases hmode with h | h | h
    · rw [m2 _ (m1 _ (m0 w h))]; exact h.symm
    · rw [m0 _ (m2 _ (m1 w h))]; exact h.symm
    · rw [m1 _ (m0 _ (m2 w h))]; exact h.symm
  rw [frame, hm3]

/-- Witness of claim C6: from SetMinute one press gives Normal, three presses
give SetMinute again. -/
theorem btn_work_func_cycle_witness :
    ((w_mode SetMinute).current_state.mode = Normal ∨
      (w_mode SetMinute).current_state.mode = SetHour ∨
      (w_mode SetMinute).current_state.mode = SetMinute) ∧
    ((btn_work_func (w_mode SetMinute)).current_state.mode = Normal ∧
      (btn_work_func (btn_work_func (btn_work_func (w_mode SetMinute)))).current_state =
        (w_mode SetMinute).current_state) :=
  ⟨by decide,
    (btn_work_func_cycle (w_mode SetMinute) (by decide)).2.2.1 rfl,
    (btn_work_func_cycle (w_mode SetMinute) (by decide)).2.2.2.2.2.2⟩

/-! The device interface -/

theorem to_ssize_t_small (K : Kernel) (x : Nat) (hx : x < 2 ^ (K.BITS_PER_LONG - 1)) :
    to_ssize_t K x = (x : Int) := by
  have hle : 2 ^ (K.BITS_PER_LONG - 1) ≤ 2 ^ K.BITS_PER_LONG :=
    Nat.pow_le_pow_right (by decide) (Nat.sub_le _ _)
  have hm : x % 2 ^ K.BITS_PER_LONG = x := Nat.mod_eq_of_lt (by omega)
  unfold to_ssize_t
  rw [hm, if_pos hx]

/-- Claim C7. A successful `clock_write` of the record `{h, m, s, mode = X}`
followed by a successful `clock_read` returns `{h, m, s, mode}` with the mode
held before the write, whatever `X` is; in particular for the record
`{13, 59, 0, X}`. The write returns `count` converted to `ssize_t`, which is
`count` itself below `2 ^ (BITS_PER_LONG - 1)`. -/
theorem clock_write_read_round_trip (K : Kernel) (w : World) (h m s X : Int) (count : Nat) :
    (clock_write K (some ⟨h, m, s, X⟩) count w).1 = to_ssize_t K count ∧
      (count < 2 ^ (K.BITS_PER_LONG - 1) →
        (clock_write K (some ⟨h, m, s, X⟩) count w).1 = (count : Int)) ∧
      clock_read true (clock_write K (some ⟨h, m, s, X⟩) count w).2 =
        ((sizeof_clock_info_t : Int), some ⟨h, m, s, w.current_state.mode⟩) ∧
      (clock_write K (some ⟨h, m, s, X⟩) count w).2.current_state.mode =
        w.current_state.mode ∧
      (clock_read true (clock_write K (some ⟨13, 59, 0, X⟩) count w).2).2 =
        some ⟨13, 59, 0, w.current_state.mode⟩ := by
  refine ⟨rfl, fun hc => to_ssize_t_small K count hc, ?_, rfl, ?_⟩ <;>
    simp [clock_write, clock_read, set_rtc_time_current_state]

/-- The failing path of `clock_write`: when the copy from user memory faults,
the call returns `-EFAULT` and the state, register file and trace are as
before. -/
theorem clock_write_fault_unchanged (K : Kernel) (count : Nat) (w : World) :
    clock_write K none count w = (-EFAULT, w) := rfl

/-- Claim C8, the code at the failing input. A `clock_write` with `count = 4`,
less than the 16 bytes of the record, over a user pointer from which 16 bytes
can be copied, does not return `-EINVAL`: it returns 4, overwrites the clock
with the copied record and performs the five register writes of
`set_rtc_time`. -/
theorem clock_write_undersized_accepted :
    4 < sizeof_clock_info_t ∧
      (clock_write kernel32 (some ⟨13, 59, 0, 0⟩) 4 w_010203).1 = 4 ∧
      (clock_write kernel32 (some ⟨13, 59, 0, 0⟩) 4 w_010203).1 ≠ -EINVAL ∧
      (clock_write kernel32 (some ⟨13, 59, 0, 0⟩) 4 w_010203).2.current_state =
        ⟨13, 59, 0, Normal⟩ ∧
      reg_writes (clock_write kernel32 (some ⟨13, 59, 0, 0⟩) 4 w_010203).2 =
        reg_writes w_010203 + 5 ∧
      (clock_write kernel64 (some ⟨13, 59, 0, 0⟩) 4 w_010203).1 = 4 ∧
      (clock_write kernel64 (some ⟨13, 59, 0, 0⟩) 4 w_010203).2.current_state =
        ⟨13, 59, 0, Normal⟩ ∧
      reg_writes (clock_write kernel64 (some ⟨13, 59, 0, 0⟩) 4 w_010203).2 =
        reg_writes w_010203 + 5 := by
  decide

/-! The range invariant -/

/-- From an in-range state the tick yields an in-range state exactly when it
does not resynchronise or the seconds register decodes to at most 59. -/
theorem timer_callback_in_range (K : Kernel) (j : Nat) (w : World)
    (hr : in_range w.current_state) :
    in_range (timer_callback K j w).current_state ↔
      (w.current_state.mode ≠ 0 ∨ w.current_state.seconds < 59 ∨
        BCD2BIN (w.regs 0x81 % 256) ≤ 59) := by
  obtain ⟨h0, h23, m0, m59, s0, s59⟩ := hr
  by_cases hmode : w.current_state.mode = 0
  · by_cases hs : w.current_state.seconds < 59
    · rw [(timer_callback_no_carry K j w hmode s0 hs m59 h23).1]
      constructor
      · intro _; exact Or.inr (Or.inl hs)
      · intro _
        exact ⟨h0, h23, m0, m59, by show (0 : Int) ≤ w.current_state.seconds + 1; omega,
          by show w.current_state.seconds + 1 ≤ 59; omega⟩
    · have hs59 : w.current_state.seconds = 59 := by omega
      have n1 := BCD2BIN_nonneg (w.regs 0x81 % 256)
      have n2 := BCD2BIN_nonneg (w.regs 0x83 % 256)
      have n3 := BCD2BIN_nonneg (w.regs 0x85 % 256)
      rw [(timer_callback_carry_any K j w hmode hs59).1]
      unfold in_range
      dsimp only
      constructor
      · intro hin
        exact Or.inr (Or.inr hin.2.2.2.2.2)
      · intro hc
        have hsec : BCD2BIN (w.regs 0x81 % 256) ≤ 59 := by
          rcases hc with h | h | h
          · exact absurd hmode h
          · exact absurd h hs
          · exact h
        refine ⟨?_, ?_, ?_, ?_, n1, hsec⟩ <;> split_ifs <;> omega
  · have e : (timer_callback K j w).current_state = w.current_state := by
      simp [timer_callback, mod_timer, hmode]
    rw [e]
    exact ⟨fun _ => Or.inl hmode, fun _ => ⟨h0, h23, m0, m59, s0, s59⟩⟩

theorem rotary_work_func_in_range (dt_val : Int) (w : World) (hr : in_range w.current_state) :
    in_range (rotary_work_func dt_val w).current_state := by
  obtain ⟨h0, h23, m0, m59, s0, s59⟩ := hr
  have hc := rotary_change_cases dt_val
  by_cases h1 : w.current_state.mode = 1
  · rw [rotary_work_func_mode1 dt_val w h1, set_rtc_time_current_state]
    refine ⟨?_, ?_, m0, m59, s0, s59⟩ <;>
      · dsimp only
        rw [hour_wrap _ _ h0 h23 hc]
        omega
  · by_cases h2 : w.current_state.mode = 2
    · rw [rotary_work_func_mode2 dt_val w h2, set_rtc_time_current_state]
      refine ⟨h0, h23, ?_, ?_, le_refl _, by show (0 : Int) ≤ 59; decide⟩ <;>
        · dsimp only
          rw [minute_wrap _ _ m0 m59 hc]
          omega
    · rw [rotary_work_func_other dt_val w h1 h2]
      exact ⟨h0, h23, m0, m59, s0, s59⟩

theorem btn_work_func_in_range (w : World) (hr : in_range w.current_state) :
    in_range (btn_work_func w).current_state := hr

/-- From an in-range state `clock_write` yields an in-range state exactly when
the call fails or the record it copies is in range. -/
theorem clock_write_in_range (K : Kernel) (buf : Option clock_info_t) (count : Nat) (w : World)
    (hr : in_range w.current_state) :
    in_range (clock_write K buf count w).2.current_state ↔ ∀ r, buf = some r → in_range r := by
  cases buf with
  | none =>
    constructor
    · intro _ r hr2; cases hr2
    · intro _; exact hr
  | some r =>
    constructor
    · intro hin r2 hr2
      cases hr2
      exact hin
    · intro hall; exact hall r rfl

/-- Claim C9, as amended. From a state within the declared ranges: the rotary
handler and the button handler always yield a state within the ranges; the
tick does so exactly when it does not resynchronise (mode is not Normal, or
seconds is below 59) or the seconds register it reads decodes to at most 59
(minutes above 59 and hours above 23 read from the registers are wrapped by the
tick itself); `clock_write` does so exactly when the call fails or the copied
record is itself within the ranges. -/
theorem mutators_keep_range (K : Kernel) (j : Nat) (dt_val : Int)
    (buf : Option clock_info_t) (count : Nat) (w : World)
    (hr : in_range w.current_state) :
    (in_range (timer_callback K j w).current_state ↔
        (w.current_state.mode ≠ 0 ∨ w.current_state.seconds < 59 ∨
          BCD2BIN (w.regs 0x81 % 256) ≤ 59)) ∧
      in_range (rotary_work_func dt_val w).current_state ∧
      in_range (btn_work_func w).current_state ∧
      (in_range (clock_write K buf count w).2.current_state ↔
        ∀ r, buf = some r → in_range r) :=
  ⟨timer_callback_in_range K j w hr, rotary_work_func_in_range dt_val w hr,
    btn_work_func_in_range w hr, clock_write_in_range K buf count w hr⟩

/-- Witness of claim C9 as amended: at 23:59:58 in mode Normal every mutator
keeps the ranges; at 00:00:59 a resynchronising tick against registers
`0x99`, `0x60`, `0x34` (hours 99, minutes 60, seconds 34) ends in range, the
tick wrapping minutes and hours itself. -/
theorem mutators_keep_range_witness :
    in_range w_235958.current_state ∧
      in_range (timer_callback kernel32 0 w_235958).current_state ∧
      in_range (rotary_work_func 0 w_235958).current_state ∧
      in_range (btn_work_func w_235958).current_state ∧
      in_range (clock_write kernel32 (some ⟨13, 59, 0, 0⟩) 16 w_235958).2.current_state ∧
      in_range (timer_callback kernel32 0
        { w_000059 with regs := fake_regs 0x99 0x60 0x34 }).current_state ∧
      (timer_callback kernel32 0
        { w_000059 with regs := fake_regs 0x99 0x60 0x34 }).current_state = ⟨0, 0, 34, Normal⟩ :=
  ⟨by decide,
    (mutators_keep_range kernel32 0 0 (some ⟨13, 59, 0, 0⟩) 16 w_235958 (by decide)).1.2
      (by decide),
    (mutators_keep_range kernel32 0 0 (some ⟨13, 59, 0, 0⟩) 16 w_235958 (by decide)).2.1,
    (mutators_keep_range kernel32 0 0 (some ⟨13, 59, 0, 0⟩) 16 w_235958 (by decide)).2.2.1,
    (mutators_keep_range kernel32 0 0 (some ⟨13, 59, 0, 0⟩) 16 w_235958 (by decide)).2.2.2.2
      (by intro r hr; cases hr; decide),
    (mutators_keep_range kernel32 0 0 none 0
      { w_000059 with regs := fake_regs 0x99 0x60 0x34 } (by decide)).1.2 (by decide),
    by decide⟩

/-- Counterexample to claim C9 as stated, one for each mutator that can leave
the ranges. From the in-range state 01:02:03 a successful `clock_write` of a
record with `hours = 100` leaves `hours = 100`. From the in-range state
12:34:59 in mode Normal a tick that resynchronises against a seconds register
holding `0x80` (the clock-halt flag of the chip set) leaves `seconds = 80`. -/
theorem write_and_resync_break_range :
    (in_range w_010203.current_state ∧
      (clock_write kernel32 (some ⟨100, 0, 0, 0⟩) 16 w_010203).2.current_state.hours = 100 ∧
      ¬ in_range (clock_write kernel32 (some ⟨100, 0, 0, 0⟩) 16 w_010203).2.current_state) ∧
    (in_range w_halted.current_state ∧
      (timer_callback kernel32 0 w_halted).current_state.seconds = 80 ∧
      ¬ in_range (timer_callback kernel32 0 w_halted).current_state) := by
  decide

/-! Debounce in the interrupt handlers -/

/-- Claim C10, as amended. Times are in jiffies and the hold-off window of a
source is `msecs_to_jiffies 150` (rotary) or `msecs_to_jiffies 200` (button)
jiffies, below half the range of the tick counter. After a first edge accepted
at `t1`, a second edge at `t2 ≥ t1` is dropped (timestamp still `t1`, one
scheduled event in total) when `t2 - t1` is less than the window, and is
accepted (timestamp `t2`, two scheduled events in total) when `t2 - t1` is more
than the window and at most the window plus `2 ^ (BITS_PER_LONG - 1)`. -/
theorem irq_handlers_debounce (K : Kernel) (w : World) (t1 t2 : Nat)
    (hbits : 1 ≤ K.BITS_PER_LONG)
    (hrot : K.msecs_to_jiffies 150 < 2 ^ (K.BITS_PER_LONG - 1))
    (hbtn : K.msecs_to_jiffies 200 < 2 ^ (K.BITS_PER_LONG - 1))
    (h12 : t1 ≤ t2) :
    (time_after K t1 (ulong K (w.last_rotary_time + K.msecs_to_jiffies 150)) = true →
      ((rotary_irq_handler K t1 w).last_rotary_time = t1 ∧
        calls Call.schedule_rotary_work (rotary_irq_handler K t1 w) =
          calls Call.schedule_rotary_work w + 1) ∧
      (t2 - t1 < K.msecs_to_jiffies 150 →
        (rotary_irq_handler K t2 (rotary_irq_handler K t1 w)).last_rotary_time = t1 ∧
        calls Call.schedule_rotary_work (rotary_irq_handler K t2 (rotary_irq_handler K t1 w)) =
          calls Call.schedule_rotary_work w + 1) ∧
      (K.msecs_to_jiffies 150 < t2 - t1 →
        t2 - t1 ≤ K.msecs_to_jiffies 150 + 2 ^ (K.BITS_PER_LONG - 1) →
        (rotary_irq_handler K t2 (rotary_irq_handler K t1 w)).last_rotary_time = t2 ∧
        calls Call.schedule_rotary_work (rotary_irq_handler K t2 (rotary_irq_handler K t1 w)) =
          calls Call.schedule_rotary_work w + 2)) ∧
    (time_after K t1 (ulong K (w.last_btn_time + K.msecs_to_jiffies 200)) = true →
      ((button_irq_handler K t1 w).last_btn_time = t1 ∧
        calls Call.schedule_btn_work (button_irq_handler K t1 w) =
          calls Call.schedule_btn_work w + 1) ∧
      (t2 - t1 < K.msecs_to_jiffies 200 →
        (button_irq_handler K t2 (button_irq_handler K t1 w)).last_btn_time = t1 ∧
        calls Call.schedule_btn_work (button_irq_handler K t2 (button_irq_handler K t1 w)) =
          calls Call.schedule_btn_work w + 1) ∧
      (K.msecs_to_jiffies 200 < t2 - t1 →
        t2 - t1 ≤ K.msecs_to_jiffies 200 + 2 ^ (K.BITS_PER_LONG - 1) →
        (button_irq_handler K t2 (button_irq_handler K t1 w)).last_btn_time = t2 ∧
        calls Call.schedule_btn_work (button_irq_handler K t2 (button_irq_handler K t1 w)) =
          calls Call.schedule_btn_work w + 2)) := by
  constructor
  · intro hacc
    have e1 : rotary_irq_handler K t1 w =
        { w with last_rotary_time := t1, trace := Call.schedule_rotary_work :: w.trace } := by
      unfold rotary_irq_handler
      simp only [hacc, if_true]
    refine ⟨?_, ?_, ?_⟩
    · rw [e1]; simp [calls]
    · intro hlt
      have hdrop := time_after_inside K t1 t2 (K.msecs_to_jiffies 150) h12 hrot hlt
      have e2 : rotary_irq_handler K t2 (rotary_irq_handler K t1 w) =
          rotary_irq_handler K t1 w := by
        rw [e1]
        unfold rotary_irq_handler
        simp only [hdrop]
        rfl
      rw [e2, e1]; simp [calls]
    · intro hgt hle
      have hacc2 := time_after_outside K t1 t2 (K.msecs_to_jiffies 150) hbits h12 hgt hle
      rw [e1]
      unfold rotary_irq_handler
      simp only [hacc2, if_true]
      simp [calls]
  · intro hacc
    have e1 : button_irq_handler K t1 w =
        { w with last_btn_time := t1, trace := Call.schedule_btn_work :: w.trace } := by
      unfold button_irq_handler
      simp only [hacc, if_true]
    refine ⟨?_, ?_, ?_⟩
    · rw [e1]; simp [calls]
    · intro hlt
      have hdrop := time_after_inside K t1 t2 (K.msecs_to_jiffies 200) h12 hbtn hlt
      have e2 : button_irq_handler K t2 (button_irq_handler K t1 w) =
          button_irq_handler K t1 w := by
        rw [e1]
        unfold button_irq_handler
        simp only [hdrop]
        rfl
      rw [e2, e1]; simp [calls]
    · intro hgt hle
      have hacc2 := time_after_outside K t1 t2 (K.msecs_to_jiffies 200) hbits h12 hgt hle
      rw [e1]
      unfold button_irq_handler
      simp only [hacc2, if_true]
      simp [calls]

/-- Witness of claim C10 as amended, on a 64-bit kernel with `HZ = 100` (windows
of 15 and 20 jiffies): after an edge accepted at jiffy 100, the rotary edge at
jiffy 110 is dropped and the button edge at jiffy 121 is accepted. -/
theorem irq_handlers_debounce_witness :
    (1 ≤ kernel64.BITS_PER_LONG ∧
      kernel64.msecs_to_jiffies 150 < 2 ^ (kernel64.BITS_PER_LONG - 1) ∧
      kernel64.msecs_to_jiffies 200 < 2 ^ (kernel64.BITS_PER_LONG - 1) ∧
      100 ≤ 110 ∧ 100 ≤ 121) ∧
    ((rotary_irq_handler kernel64 110 (rotary_irq_handler kernel64 100 w_010203)).last_rotary_time
        = 100 ∧
      calls Call.schedule_rotary_work
        (rotary_irq_handler kernel64 110 (rotary_irq_handler kernel64 100 w_010203)) =
        calls Call.schedule_rotary_work w_010203 + 1) ∧
    ((button_irq_handler kernel64 121 (button_irq_handler kernel64 100 w_010203)).last_btn_time
        = 121 ∧
      calls Call.schedule_btn_work
        (button_irq_handler kernel64 121 (button_irq_handler kernel64 100 w_010203)) =
        calls Call.schedule_btn_work w_010203 + 2) :=
  ⟨⟨by decide, by decide, by decide, by decide, by decide⟩,
    ((irq_handlers_debounce kernel64 w_010203 100 110 (by decide) (by decide) (by decide)
      (by decide)).1 (by decide)).2.1 (by decide),
    ((irq_handlers_debounce kernel64 w_010203 100 121 (by decide) (by decide) (by decide)
      (by decide)).2 (by decide)).2.2 (by decide) (by decide)⟩

/-- Counterexample to claim C10 as stated, on a 32-bit kernel with `HZ = 1000`
(window of 150 jiffies): after a rotary edge accepted at jiffy 1000, the edge
at jiffy 2147484799, which is `2 ^ 31 + 151` jiffies later, is dropped, because
`time_after` compares modulo `2 ^ 32`. -/
theorem rotary_irq_handler_half_range_drop :
    time_after kernel32 1000
        (ulong kernel32 (w_010203.last_rotary_time + kernel32.msecs_to_jiffies 150)) = true ∧
      1000 ≤ 2147484799 ∧ 2147484799 < 2 ^ kernel32.BITS_PER_LONG ∧
      kernel32.msecs_to_jiffies 150 < 2147484799 - 1000 ∧
      (rotary_irq_handler kernel32 2147484799
        (rotary_irq_handler kernel32 1000 w_010203)).last_rotary_time = 1000 ∧
      ¬ ((rotary_irq_handler kernel32 2147484799
            (rotary_irq_handler kernel32 1000 w_010203)).last_rotary_time = 2147484799 ∧
          calls Call.schedule_rotary_work (rotary_irq_handler kernel32 2147484799
            (rotary_irq_handler kernel32 1000 w_010203)) =
            calls Call.schedule_rotary_work w_010203 + 2) := by
  decide

/-! Module init -/

theorem my_driver_init_returns_zero (E : InitEnv) (K : Kernel) (j : Nat) (m : Module) :
    (my_driver_init E K j m).1 = 0 := rfl

theorem acquire_keeps (ret : Int) (r x : Resource) (held : List Resource) (hx : x ∈ held) :
    x ∈ acquire ret r held := by
  unfold acquire
  split
  · exact List.mem_cons_of_mem _ hx
  · exact hx

/-- Nothing held before `my_driver_init` is released by it, whatever the kernel
services return. -/
theorem my_driver_init_releases_nothing (E : InitEnv) (K : Kernel) (j : Nat) (m : Module)
    (x : Resource) (hx : x ∈ m.held) : x ∈ (my_driver_init E K j m).2.held := by
  unfold my_driver_init
  dsimp only
  repeat first
    | apply acquire_keeps
    | apply List.mem_cons_of_mem
  exact hx

/-- Claim C11, the code at the failing input. When the request of the DS1302
clock line fails with `-EBUSY` and every other service succeeds,
`my_driver_init` still returns 0, and the character device and the reset line
acquired before the failing step, as well as everything acquired after it, are
held on return. -/
theorem my_driver_init_ignores_failure :
    env_clk_busy.gpio_request GPIO_RTC_CLK = -EBUSY ∧
      (my_driver_init env_clk_busy kernel32 0 (unloaded w_010203)).1 = 0 ∧
      (my_driver_init env_clk_busy kernel32 0 (unloaded w_010203)).2.held =
        [Resource.irq 173, Resource.irq 165, Resource.timer, Resource.gpio GPIO_ROT_SW,
          Resource.gpio GPIO_ROT_DT, Resource.gpio GPIO_ROT_CLK, Resource.gpio GPIO_RTC_DAT,
          Resource.gpio GPIO_RTC_RST, Resource.chrdev DEVICE_MAJOR] := by
  decide

/-! The re-arming of the timer -/

theorem timer_callback_my_timer (K : Kernel) (j : Nat) (w : World) :
    (timer_callback K j w).my_timer = ulong K (j + K.msecs_to_jiffies 1000) := rfl

theorem timer_callback_trace_head (K : Kernel) (j : Nat) (w : World) :
    (timer_callback K j w).trace.head? =
      some (Call.mod_timer (ulong K (j + K.msecs_to_jiffies 1000))) := rfl

/-- Claim C12, as amended. The expiry `timer_callback` re-arms is
`msecs_to_jiffies(1000)` jiffies after the value of jiffies at which the
callback runs (modulo the word), whatever expiry the current firing was armed
for; in a run the expiry set by firing `n` is `clk n + msecs_to_jiffies(1000)`,
so it is `start + (n + 1) * msecs_to_jiffies(1000)` when every firing runs
exactly on its intended instant `start + n * msecs_to_jiffies(1000)`. -/
theorem timer_callback_rearms_from_now (K : Kernel) (j : Nat) (w : World)
    (src : Nat → Nat → Nat) (clk : Nat → Nat) :
    (timer_callback K j w).my_timer = ulong K (j + K.msecs_to_jiffies 1000) ∧
      (timer_callback K j w).trace.head? =
        some (Call.mod_timer (ulong K (j + K.msecs_to_jiffies 1000))) ∧
      (∀ x : Nat, (timer_callback K j { w with my_timer := x }).my_timer =
        (timer_callback K j w).my_timer) ∧
      (∀ n, (ticks K src clk (n + 1) w).my_timer =
        ulong K (clk n + K.msecs_to_jiffies 1000)) ∧
      (∀ start, (∀ k, clk k = start + k * K.msecs_to_jiffies 1000) →
        ∀ n, (ticks K src clk (n + 1) w).my_timer =
          ulong K (start + (n + 1) * K.msecs_to_jiffies 1000)) := by
  refine ⟨rfl, rfl, fun _ => rfl, fun _ => rfl, ?_⟩
  intro start hclk n
  show ulong K (clk n + K.msecs_to_jiffies 1000) = _
  rw [hclk n, Nat.add_mul, one_mul, Nat.add_assoc]

/-- Witness of claim C12 as amended: a firing armed for jiffy 1000 that runs at
jiffy 1005 re-arms for jiffy 2005. -/
theorem timer_callback_rearms_from_now_witness :
    w_armed_1000.my_timer = 1000 ∧
      (timer_callback kernel32 1005 w_armed_1000).my_timer = 2005 ∧
      (timer_callback kernel32 1005 w_armed_1000).my_timer =
        ulong kernel32 (1005 + kernel32.msecs_to_jiffies 1000) :=
  ⟨rfl, by decide,
    (timer_callback_rearms_from_now kernel32 1005 w_armed_1000 (fun _ => fake_regs 0 0 0)
      (fun k => 1000 * k)).1⟩

/-- Counterexample to claim C12 as stated, on a kernel with one jiffy per
millisecond: a firing whose intended expiry was jiffy 1000 and which runs 5
jiffies late re-arms for jiffy 2005, not for 1000 + 1000. -/
theorem timer_callback_late_firing_drifts :
    w_armed_1000.my_timer = 1000 ∧ kernel32.msecs_to_jiffies 1000 = 1000 ∧
      (timer_callback kernel32 1005 w_armed_1000).my_timer = 2005 ∧
      ¬ ((timer_callback kernel32 1005 w_armed_1000).my_timer =
        w_armed_1000.my_timer + kernel32.msecs_to_jiffies 1000) := by
  decide

/-! The tick and the hardware -/

theorem get_rtc_time_regs (w : World) : (get_rtc_time w).regs = w.regs := rfl

theorem get_rtc_time_reg_writes (w : World) : reg_writes (get_rtc_time w) = reg_writes w := by
  simp [reg_writes, get_rtc_time, ds1302_read_reg, Call.isWrite]

theorem get_rtc_time_set_calls (w : World) :
    calls Call.set_rtc_time (get_rtc_time w) = calls Call.set_rtc_time w := by
  simp [calls, get_rtc_time, ds1302_read_reg]

/-- In a mode other than Normal the tick only re-arms the timer. -/
theorem timer_callback_not_normal (K : Kernel) (j : Nat) (w : World)
    (hmode : ¬ w.current_state.mode = 0) :
    timer_callback K j w = mod_timer (ulong K (j + K.msecs_to_jiffies 1000)) w := by
  unfold timer_callback
  rw [if_neg hmode]

theorem ite_state_hw (c : Prop) [Decidable c] (a : World) (cs : clock_info_t) :
    (if c then { a with current_state := cs } else a).trace = a.trace ∧
      (if c then { a with current_state := cs } else a).regs = a.regs := by
  split <;> exact ⟨rfl, rfl⟩

theorem get_rtc_time_trace (w : World) :
    (get_rtc_time w).trace =
      Call.ds1302_read_reg 0x85 :: Call.ds1302_read_reg 0x85 ::
        Call.ds1302_read_reg 0x83 :: Call.ds1302_read_reg 0x83 ::
        Call.ds1302_read_reg 0x81 :: Call.ds1302_read_reg 0x81 ::
        Call.get_rtc_time :: w.trace := rfl

/-- The last two stages of the tick (minute carry, hour carry) and the
re-arming of the timer change neither the register file nor, apart from the
`mod_timer` entry, the trace. -/
theorem timer_callback_tail_hw (x : Nat) (w2 : World) :
    (mod_timer x
        (let w3 :=
          if w2.current_state.minutes > 59 then
            { w2 with current_state :=
              { w2.current_state with
                minutes := 0
                hours := wrap32 (w2.current_state.hours + 1) } }
          else w2
        if w3.current_state.hours > 23 then
          { w3 with current_state := { w3.current_state with hours := 0 } }
        else w3)).regs = w2.regs ∧
      (mod_timer x
        (let w3 :=
          if w2.current_state.minutes > 59 then
            { w2 with current_state :=
              { w2.current_state with
                minutes := 0
                hours := wrap32 (w2.current_state.hours + 1) } }
          else w2
        if w3.current_state.hours > 23 then
          { w3 with current_state := { w3.current_state with hours := 0 } }
        else w3)).trace = Call.mod_timer x :: w2.trace := by
  dsimp only
  split_ifs <;> exact ⟨rfl, rfl⟩

/-- What the tick does to the hardware side of the state: the register file
is untouched, and the trace gains the re-arming of the timer, preceded, when
the tick resynchronises, by one `get_rtc_time` with its six register reads. -/
theorem timer_callback_hw (K : Kernel) (j : Nat) (w : World) :
    (timer_callback K j w).regs = w.regs ∧
      ((timer_callback K j w).trace =
          Call.mod_timer (ulong K (j + K.msecs_to_jiffies 1000)) :: w.trace ∨
        (timer_callback K j w).trace =
          Call.mod_timer (ulong K (j + K.msecs_to_jiffies 1000)) ::
            Call.ds1302_read_reg 0x85 :: Call.ds1302_read_reg 0x85 ::
            Call.ds1302_read_reg 0x83 :: Call.ds1302_read_reg 0x83 ::
            Call.ds1302_read_reg 0x81 :: Call.ds1302_read_reg 0x81 ::
            Call.get_rtc_time :: w.trace) := by
  by_cases hmode : w.current_state.mode = 0
  · have e : timer_callback K j w =
        mod_timer (ulong K (j + K.msecs_to_jiffies 1000))
          ((fun w2 : World =>
            let w3 :=
              if w2.current_state.minutes > 59 then
                { w2 with current_state :=
                  { w2.current_state with
                    minutes := 0
                    hours := wrap32 (w2.current_state.hours + 1) } }
              else w2
            if w3.current_state.hours > 23 then
              { w3 with current_state := { w3.current_state with hours := 0 } }
            else w3)
          (if wrap32 (w.current_state.seconds + 1) > 59 then
            get_rtc_time { w with current_state :=
              { w.current_state with
                seconds := 0
                minutes := wrap32 (w.current_state.minutes + 1) } }
          else
            { w with current_state :=
              { w.current_state with seconds := wrap32 (w.current_state.seconds + 1) } })) := by
      unfold timer_callback
      rw [if_pos hmode]
    rw [e]
    by_cases h1 : wrap32 (w.current_state.seconds + 1) > 59
    · rw [if_pos h1]
      obtain ⟨t1, t2⟩ := timer_callback_tail_hw (ulong K (j + K.msecs_to_jiffies 1000))
        (get_rtc_time { w with current_state :=
          { w.current_state with
            seconds := 0
            minutes := wrap32 (w.current_state.minutes + 1) } })
      exact ⟨t1, Or.inr t2⟩
    · rw [if_neg h1]
      obtain ⟨t1, t2⟩ := timer_callback_tail_hw (ulong K (j + K.msecs_to_jiffies 1000))
        { w with current_state :=
          { w.current_state with seconds := wrap32 (w.current_state.seconds + 1) } }
      exact ⟨t1, Or.inl t2⟩
  · rw [timer_callback_not_normal K j w hmode]
    exact ⟨rfl, Or.inl rfl⟩

/-- In any mode the tick performs no register write, leaves the register file
as it was and never calls `set_rtc_time`. -/
theorem timer_callback_no_write (K : Kernel) (j : Nat) (w : World) :
    reg_writes (timer_callback K j w) = reg_writes w ∧
      (timer_callback K j w).regs = w.regs ∧
      calls Call.set_rtc_time (timer_callback K j w) = calls Call.set_rtc_time w := by
  obtain ⟨hr, ht | ht⟩ := timer_callback_hw K j w <;>
    exact ⟨by simp [reg_writes, ht, Call.isWrite], hr, by simp [calls, ht]⟩
/-- Claim C13. In mode SetHour or SetMinute `timer_callback` leaves hours,
minutes, seconds and mode unchanged and performs no register read and no
register write; in every mode it performs no register write, leaves the
register file unchanged and does not call `set_rtc_time`. -/
theorem timer_callback_gated_no_write (K : Kernel) (j : Nat) (w : World) :
    ((w.current_state.mode = SetHour ∨ w.current_state.mode = SetMinute) →
        (timer_callback K j w).current_state = w.current_state ∧
        reg_reads (timer_callback K j w) = reg_reads w ∧
        reg_writes (timer_callback K j w) = reg_writes w ∧
        calls Call.get_rtc_time (timer_callback K j w) = calls Call.get_rtc_time w) ∧
      reg_writes (timer_callback K j w) = reg_writes w ∧
      (timer_callback K j w).regs = w.regs ∧
      calls Call.set_rtc_time (timer_callback K j w) = calls Call.set_rtc_time w := by
  refine ⟨?_, timer_callback_no_write K j w⟩
  intro hmode
  have hm : ¬ w.current_state.mode = 0 := by
    rcases hmode with h | h <;> rw [h] <;> decide
  rw [timer_callback_not_normal K j w hm]
  simp [mod_timer, reg_reads, reg_writes, calls, Call.isRead, Call.isWrite]

/-- Witness of claim C13: a tick in mode SetMinute, and a carrying tick in mode
Normal, which reads the registers but writes none. -/
theorem timer_callback_gated_no_write_witness :
    ((w_mode SetMinute).current_state.mode = SetHour ∨
        (w_mode SetMinute).current_state.mode = SetMinute) ∧
      (timer_callback kernel32 0 (w_mode SetMinute)).current_state =
        (w_mode SetMinute).current_state ∧
      reg_reads (timer_callback kernel32 0 (w_mode SetMinute)) = reg_reads (w_mode SetMinute) ∧
      reg_reads (timer_callback kernel32 0 w_000059) = reg_reads w_000059 + 6 ∧
      reg_writes (timer_callback kernel32 0 w_000059) = reg_writes w_000059 :=
  ⟨by decide,
    ((timer_callback_gated_no_write kernel32 0 (w_mode SetMinute)).1 (by decide)).1,
    ((timer_callback_gated_no_write kernel32 0 (w_mode SetMinute)).1 (by decide)).2.1,
    by decide,
    (timer_callback_gated_no_write kernel32 0 w_000059).2.1⟩

/-! Bit-level transport -/

theorem range_eight : List.range 8 = [0, 1, 2, 3, 4, 5, 6, 7] := by decide

theorem and_one_eq_mod (x : Nat) : x &&& 0x01 = x % 2 := Nat.and_pow_two_sub_one_eq_mod x 1

theorem shiftRight_one_eq_div (x : Nat) : x >>> 1 = x / 2 := Nat.shiftRight_eq_div_pow x 1

/-- The pin operations of `ds1302_write_byte`, bit by bit. -/
theorem ds1302_write_byte_ops (v : Nat) (hv : v < 256) :
    ds1302_write_byte v =
      PinOp.gpio_direction_output GPIO_RTC_DAT 0 ::
        (List.range 8).flatMap (fun i =>
          [PinOp.gpio_set_value GPIO_RTC_DAT (bit_of v i), PinOp.udelay 2,
            PinOp.gpio_set_value GPIO_RTC_CLK 1, PinOp.udelay 2,
            PinOp.gpio_set_value GPIO_RTC_CLK 0, PinOp.udelay 2]) := by
  rw [range_eight]
  simp only [ds1302_write_byte, ds1302_write_byte_loop, and_one_eq_mod, shiftRight_one_eq_div,
    bit_of, List.flatMap_cons, List.flatMap_nil, List.cons_append, List.nil_append,
    List.append_nil, List.cons.injEq, PinOp.gpio_set_value.injEq, true_and, and_true]
  norm_num
  omega

/-- The data-line levels driven by `ds1302_write_byte`, in order: bits 0 to 7. -/
theorem ds1302_write_byte_driven (v : Nat) (hv : v < 256) :
    driven GPIO_RTC_DAT (ds1302_write_byte v) =
      [bit_of v 0, bit_of v 1, bit_of v 2, bit_of v 3, bit_of v 4, bit_of v 5, bit_of v 6,
        bit_of v 7] := by
  rw [ds1302_write_byte_ops v hv, range_eight]
  simp [driven, GPIO_RTC_DAT, GPIO_RTC_CLK]

/-- The clock-line levels driven by `ds1302_write_byte`: eight pulses, high
then low. -/
theorem ds1302_write_byte_clock (v : Nat) (hv : v < 256) :
    driven GPIO_RTC_CLK (ds1302_write_byte v) =
      [1, 0, 1, 0, 1, 0, 1, 0, 1, 0, 1, 0, 1, 0, 1, 0] := by
  rw [ds1302_write_byte_ops v hv, range_eight]
  simp [driven, GPIO_RTC_DAT, GPIO_RTC_CLK]

theorem ds1302_read_byte_loop_succ (line : Nat → Int) (n i dat : Nat) :
    (ds1302_read_byte_loop line (n + 1) i dat).1 =
      (ds1302_read_byte_loop line n (i + 1)
        (if line i ≠ 0 then ((dat >>> 1) ||| 0x80) % 256 else dat >>> 1)).1 := rfl

theorem ds1302_read_byte_loop_zero (line : Nat → Int) (i dat : Nat) :
    (ds1302_read_byte_loop line 0 i dat).1 = dat := rfl

theorem lor_high_bit (x : Nat) (hx : x < 128) : x ||| 0x80 = x + 128 := by
  revert x
  decide

/-- One sample of `ds1302_read_byte` on a byte-sized accumulator: the
accumulator is halved and the sampled bit enters at bit 7. -/
theorem read_sample_step (x y : Nat) :
    (if (((y % 2 : Nat) : Int)) ≠ 0 then (((x % 256) >>> 1) ||| 0x80) % 256
      else (x % 256) >>> 1) = ((x % 256) / 2 + 128 * (y % 2)) % 256 := by
  rw [shiftRight_one_eq_div]
  have hx : x % 256 / 2 < 128 := by omega
  rcases Nat.mod_two_eq_zero_or_one y with h | h
  · rw [h]
    simp only [Nat.cast_zero, ne_eq, not_true_eq_false, if_false]
    omega
  · rw [h, lor_high_bit _ hx]
    simp only [Nat.cast_one, ne_eq, one_ne_zero, not_false_eq_true, if_true]


theorem ds1302_read_byte_unroll (line : Nat → Int) :
    (ds1302_read_byte line).1 =
      List.foldl (fun dat i => if line i ≠ 0 then ((dat >>> 1) ||| 0x80) % 256 else dat >>> 1)
        0 [0, 1, 2, 3, 4, 5, 6, 7] := by
  unfold ds1302_read_byte
  simp only [ds1302_read_byte_loop, List.foldl]

/-- One step of the unrolled read loop on a byte-sized accumulator, at a
sample that carries bit `i` of `v`. -/
theorem read_fold_step (v : Nat) (line : Nat → Int) (i x : Nat) (rest : List Nat)
    (hi : line i = ((bit_of v i : Nat) : Int)) :
    List.foldl (fun dat i => if line i ≠ 0 then ((dat >>> 1) ||| 0x80) % 256 else dat >>> 1)
        (x % 256) (i :: rest) =
      List.foldl (fun dat i => if line i ≠ 0 then ((dat >>> 1) ||| 0x80) % 256 else dat >>> 1)
        (((x % 256) / 2 + 128 * bit_of v i) % 256) rest := by
  rw [List.foldl_cons]
  rw [hi]
  unfold bit_of
  rw [read_sample_step]

/-- Sampling bits 0 to 7 of a byte in this order, `ds1302_read_byte` returns
the byte. -/
theorem ds1302_read_byte_bits (v : Nat) (hv : v < 256) (line : Nat → Int)
    (hline : ∀ i, i < 8 → line i = ((bit_of v i : Nat) : Int)) :
    (ds1302_read_byte line).1 = v := by
  rw [ds1302_read_byte_unroll]
  have h0 : List.foldl
      (fun dat i => if line i ≠ 0 then ((dat >>> 1) ||| 0x80) % 256 else dat >>> 1)
      0 [0, 1, 2, 3, 4, 5, 6, 7] =
    List.foldl
      (fun dat i => if line i ≠ 0 then ((dat >>> 1) ||| 0x80) % 256 else dat >>> 1)
      (0 % 256) [0, 1, 2, 3, 4, 5, 6, 7] := rfl
  rw [h0, read_fold_step v line 0 _ _ (hline 0 (by decide)),
    read_fold_step v line 1 _ _ (hline 1 (by decide)),
    read_fold_step v line 2 _ _ (hline 2 (by decide)),
    read_fold_step v line 3 _ _ (hline 3 (by decide)),
    read_fold_step v line 4 _ _ (hline 4 (by decide)),
    read_fold_step v line 5 _ _ (hline 5 (by decide)),
    read_fold_step v line 6 _ _ (hline 6 (by decide)),
    read_fold_step v line 7 _ _ (hline 7 (by decide)), List.foldl_nil]
  have hsum : v = bit_of v 0 + 2 * bit_of v 1 + 4 * bit_of v 2 + 8 * bit_of v 3 +
      16 * bit_of v 4 + 32 * bit_of v 5 + 64 * bit_of v 6 + 128 * bit_of v 7 := by
    have p : ∀ i, bit_of v i = v / 2 ^ i % 2 := fun _ => rfl
    rw [p 0, p 1, p 2, p 3, p 4, p 5, p 6, p 7]
    norm_num
    omega
  have b0 : bit_of v 0 < 2 := Nat.mod_lt _ (by decide)
  have b1 : bit_of v 1 < 2 := Nat.mod_lt _ (by decide)
  have b2 : bit_of v 2 < 2 := Nat.mod_lt _ (by decide)
  have b3 : bit_of v 3 < 2 := Nat.mod_lt _ (by decide)
  have b4 : bit_of v 4 < 2 := Nat.mod_lt _ (by decide)
  have b5 : bit_of v 5 < 2 := Nat.mod_lt _ (by decide)
  have b6 : bit_of v 6 < 2 := Nat.mod_lt _ (by decide)
  have b7 : bit_of v 7 < 2 := Nat.mod_lt _ (by decide)
  have e1 : (0 % 256 / 2 + 128 * bit_of v 0) % 256 = 128 * bit_of v 0 := by omega
  rw [e1]
  have e2 : (128 * bit_of v 0 / 2 + 128 * bit_of v 1) % 256 =
      64 * bit_of v 0 + 128 * bit_of v 1 := by omega
  rw [e2]
  have e3 : ((64 * bit_of v 0 + 128 * bit_of v 1) / 2 + 128 * bit_of v 2) % 256 =
      32 * bit_of v 0 + 64 * bit_of v 1 + 128 * bit_of v 2 := by omega
  rw [e3]
  have e4 : ((32 * bit_of v 0 + 64 * bit_of v 1 + 128 * bit_of v 2) / 2 +
      128 * bit_of v 3) % 256 =
      16 * bit_of v 0 + 32 * bit_of v 1 + 64 * bit_of v 2 + 128 * bit_of v 3 := by omega
  rw [e4]
  have e5 : ((16 * bit_of v 0 + 32 * bit_of v 1 + 64 * bit_of v 2 + 128 * bit_of v 3) / 2 +
      128 * bit_of v 4) % 256 =
      8 * bit_of v 0 + 16 * bit_of v 1 + 32 * bit_of v 2 + 64 * bit_of v 3 +
        128 * bit_of v 4 := by omega
  rw [e5]
  have e6 : ((8 * bit_of v 0 + 16 * bit_of v 1 + 32 * bit_of v 2 + 64 * bit_of v 3 +
      128 * bit_of v 4) / 2 + 128 * bit_of v 5) % 256 =
      4 * bit_of v 0 + 8 * bit_of v 1 + 16 * bit_of v 2 + 32 * bit_of v 3 +
        64 * bit_of v 4 + 128 * bit_of v 5 := by omega
  rw [e6]
  have e7 : ((4 * bit_of v 0 + 8 * bit_of v 1 + 16 * bit_of v 2 + 32 * bit_of v 3 +
      64 * bit_of v 4 + 128 * bit_of v 5) / 2 + 128 * bit_of v 6) % 256 =
      2 * bit_of v 0 + 4 * bit_of v 1 + 8 * bit_of v 2 + 16 * bit_of v 3 +
        32 * bit_of v 4 + 64 * bit_of v 5 + 128 * bit_of v 6 := by omega
  rw [e7]
  have e8 : ((2 * bit_of v 0 + 4 * bit_of v 1 + 8 * bit_of v 2 + 16 * bit_of v 3 +
      32 * bit_of v 4 + 64 * bit_of v 5 + 128 * bit_of v 6) / 2 + 128 * bit_of v 7) % 256 =
      bit_of v 0 + 2 * bit_of v 1 + 4 * bit_of v 2 + 8 * bit_of v 3 +
        16 * bit_of v 4 + 32 * bit_of v 5 + 64 * bit_of v 6 + 128 * bit_of v 7 := by omega
  rw [e8]
  exact hsum.symm

/-- Claim C14. For every byte `v`, `ds1302_write_byte v` sets the data pin to
output and then, for bits 0, 1, ..., 7 of `v` in this order, puts the bit on
the data line and pulses the clock high then low once; and `ds1302_read_byte`,
sampling the eight levels that were driven, in the same order, returns `v`. -/
theorem ds1302_byte_lsb_first (v : Nat) (hv : v < 256) :
    ds1302_write_byte v =
        PinOp.gpio_direction_output GPIO_RTC_DAT 0 ::
          (List.range 8).flatMap (fun i =>
            [PinOp.gpio_set_value GPIO_RTC_DAT (bit_of v i), PinOp.udelay 2,
              PinOp.gpio_set_value GPIO_RTC_CLK 1, PinOp.udelay 2,
              PinOp.gpio_set_value GPIO_RTC_CLK 0, PinOp.udelay 2]) ∧
      driven GPIO_RTC_DAT (ds1302_write_byte v) = (List.range 8).map (bit_of v) ∧
      driven GPIO_RTC_CLK (ds1302_write_byte v) = (List.range 8).flatMap (fun _ => [1, 0]) ∧
      (ds1302_read_byte (fun i =>
        (((driven GPIO_RTC_DAT (ds1302_write_byte v)).getD i 0 : Nat) : Int))).1 = v ∧
      (∀ line : Nat → Int, (∀ i, i < 8 → line i = ((bit_of v i : Nat) : Int)) →
        (ds1302_read_byte line).1 = v) := by
  refine ⟨ds1302_write_byte_ops v hv, ?_, ?_, ?_, fun line hl => ds1302_read_byte_bits v hv line hl⟩
  · rw [ds1302_write_byte_driven v hv, range_eight]
    rfl
  · rw [ds1302_write_byte_clock v hv, range_eight]
    rfl
  · apply ds1302_read_byte_bits v hv
    intro i hi
    rw [ds1302_write_byte_driven v hv]
    have hc : i = 0 ∨ i = 1 ∨ i = 2 ∨ i = 3 ∨ i = 4 ∨ i = 5 ∨ i = 6 ∨ i = 7 := by omega
    rcases hc with h | h | h | h | h | h | h | h <;> subst h <;> rfl

/-- Witness of claim C14 at the byte `0xA7`. -/
theorem ds1302_byte_lsb_first_witness :
    (0xA7 : Nat) < 256 ∧
      driven GPIO_RTC_DAT (ds1302_write_byte 0xA7) = [1, 1, 1, 0, 0, 1, 0, 1] ∧
      driven GPIO_RTC_DAT (ds1302_write_byte 0xA7) = (List.range 8).map (bit_of 0xA7) ∧
      (ds1302_read_byte (fun i =>
        (((driven GPIO_RTC_DAT (ds1302_write_byte 0xA7)).getD i 0 : Nat) : Int))).1 = 0xA7 :=
  ⟨by decide, by decide, (ds1302_byte_lsb_first 0xA7 (by decide)).2.1,
    (ds1302_byte_lsb_first 0xA7 (by decide)).2.2.2.1⟩

/-! Register round trip -/

theorem bcd_table :
    ∀ n : Nat, n < 100 →
      0 ≤ BIN2BCD (n : Int) ∧ BIN2BCD (n : Int) < 256 ∧
        BCD2BIN (u8 (BIN2BCD (n : Int)) % 256) = (n : Int) := by
  decide

/-- Packed-decimal round trip: for `0 ≤ x ≤ 99`, `BIN2BCD x` fits in a byte and
`BCD2BIN` of that byte is `x`. -/
theorem BCD2BIN_BIN2BCD (x : Int) (h0 : 0 ≤ x) (h99 : x ≤ 99) :
    0 ≤ BIN2BCD x ∧ BIN2BCD x < 256 ∧ BCD2BIN (u8 (BIN2BCD x) % 256) = x := by
  obtain ⟨n, rfl⟩ := Int.eq_ofNat_of_zero_le h0
  exact bcd_table n (by omega)

/-- The state after `set_rtc_time` then `get_rtc_time`, over the fake register
file: each field is the decoding of the byte written for it. -/
theorem get_set_rtc_time_state (w : World) :
    (get_rtc_time (set_rtc_time w)).current_state =
      { hours := BCD2BIN (u8 (BIN2BCD w.current_state.hours) % 256)
        minutes := BCD2BIN (u8 (BIN2BCD w.current_state.minutes) % 256)
        seconds := BCD2BIN (u8 (BIN2BCD w.current_state.seconds) % 256)
        mode := w.current_state.mode } := by
  simp [get_rtc_time, set_rtc_time, ds1302_read_reg, ds1302_write_reg, BCD2BIN_expand_self,
    Function.update]

/-- The record after `get_rtc_time` on any world: hours, minutes and seconds are
decoded from the three registers, whatever they were before; mode is kept. -/
theorem get_rtc_time_state (v : World) :
    (get_rtc_time v).current_state =
      { hours := BCD2BIN (v.regs 0x85 % 256)
        minutes := BCD2BIN (v.regs 0x83 % 256)
        seconds := BCD2BIN (v.regs 0x81 % 256)
        mode := v.current_state.mode } := by
  simp [get_rtc_time, ds1302_read_reg, BCD2BIN_expand_self]

/-- The register file after `set_rtc_time`: the three time registers hold the
packed-decimal bytes of hours, minutes and seconds at their read addresses. -/
theorem set_rtc_time_regs (w : World) :
    (set_rtc_time w).regs 0x85 = u8 (BIN2BCD w.current_state.hours) ∧
      (set_rtc_time w).regs 0x83 = u8 (BIN2BCD w.current_state.minutes) ∧
      (set_rtc_time w).regs 0x81 = u8 (BIN2BCD w.current_state.seconds) := by
  simp [set_rtc_time, ds1302_write_reg, Function.update]

/-- Claim C15. Over the fake register file (a read at address `a ||| 1` returns
the byte last written at address `a`), for every state with hours in 0..23,
minutes in 0..59 and seconds in 0..59, `set_rtc_time` followed by
`get_rtc_time` restores hours, minutes and seconds and leaves mode unchanged.
The values come back through the registers: `set_rtc_time` stores the
packed-decimal bytes, and `get_rtc_time` on any world that holds those three
registers, whatever its record held before, loads exactly the hours, minutes
and seconds that were written and keeps its own mode. For every `0 ≤ x ≤ 99`,
`BIN2BCD x` fits in 8 bits and `BCD2BIN (BIN2BCD x) = x`. -/
theorem set_get_rtc_time_round_trip (w : World) (hr : in_range w.current_state) :
    (get_rtc_time (set_rtc_time w)).current_state = w.current_state ∧
      (get_rtc_time (set_rtc_time w)).current_state.hours = w.current_state.hours ∧
      (get_rtc_time (set_rtc_time w)).current_state.minutes = w.current_state.minutes ∧
      (get_rtc_time (set_rtc_time w)).current_state.seconds = w.current_state.seconds ∧
      (get_rtc_time (set_rtc_time w)).current_state.mode = w.current_state.mode ∧
      (∀ a data : Nat, (ds1302_read_reg (a ||| 1) (ds1302_write_reg a data w)).1 = data % 256) ∧
      (∀ x : Int, 0 ≤ x → x ≤ 99 →
        0 ≤ BIN2BCD x ∧ BIN2BCD x < 256 ∧ BCD2BIN (u8 (BIN2BCD x)) = x) ∧
      (((set_rtc_time w).regs 0x85 : Int) = BIN2BCD w.current_state.hours ∧
        ((set_rtc_time w).regs 0x83 : Int) = BIN2BCD w.current_state.minutes ∧
        ((set_rtc_time w).regs 0x81 : Int) = BIN2BCD w.current_state.seconds) ∧
      (∀ v : World, v.regs 0x85 = (set_rtc_time w).regs 0x85 →
        v.regs 0x83 = (set_rtc_time w).regs 0x83 →
        v.regs 0x81 = (set_rtc_time w).regs 0x81 →
        (get_rtc_time v).current_state =
          { hours := w.current_state.hours
            minutes := w.current_state.minutes
            seconds := w.current_state.seconds
            mode := v.current_state.mode }) ∧
      (∀ c : clock_info_t,
        (get_rtc_time { set_rtc_time w with current_state := c }).current_state =
          { w.current_state with mode := c.mode }) := by
  obtain ⟨h0, h23, m0, m59, s0, s59⟩ := hr
  obtain ⟨r85, r83, r81⟩ := set_rtc_time_regs w
  obtain ⟨bh0, bh1, bh2⟩ := BCD2BIN_BIN2BCD _ h0 (show w.current_state.hours ≤ 99 by omega)
  obtain ⟨bm0, bm1, bm2⟩ := BCD2BIN_BIN2BCD _ m0 (show w.current_state.minutes ≤ 99 by omega)
  obtain ⟨bs0, bs1, bs2⟩ := BCD2BIN_BIN2BCD _ s0 (show w.current_state.seconds ≤ 99 by omega)
  have e : (get_rtc_time (set_rtc_time w)).current_state = w.current_state := by
    rw [get_set_rtc_time_state, bh2, bm2, bs2]
  have hv : ∀ v : World, v.regs 0x85 = (set_rtc_time w).regs 0x85 →
      v.regs 0x83 = (set_rtc_time w).regs 0x83 →
      v.regs 0x81 = (set_rtc_time w).regs 0x81 →
      (get_rtc_time v).current_state =
        { hours := w.current_state.hours
          minutes := w.current_state.minutes
          seconds := w.current_state.seconds
          mode := v.current_state.mode } := by
    intro v e85 e83 e81
    rw [get_rtc_time_state, e85, e83, e81, r85, r83, r81, bh2, bm2, bs2]
  refine ⟨e, by rw [e], by rw [e], by rw [e], by rw [e], ?_, ?_, ⟨?_, ?_, ?_⟩, hv, ?_⟩
  · intro a data
    simp [ds1302_read_reg, ds1302_write_reg]
  · intro x hx0 hx99
    obtain ⟨p1, p2, p3⟩ := BCD2BIN_BIN2BCD x hx0 hx99
    refine ⟨p1, p2, ?_⟩
    have hu : u8 (BIN2BCD x) % 256 = u8 (BIN2BCD x) := by
      unfold u8; omega
    rw [← hu]; exact p3
  · rw [r85]; unfold u8; omega
  · rw [r83]; unfold u8; omega
  · rw [r81]; unfold u8; omega
  · intro c
    exact hv { set_rtc_time w with current_state := c } rfl rfl rfl

/-- Witness of claim C15 at 23:59:58: the registers hold `0x23`, `0x59`,
`0x58`, and reading them back into a record that held 00:00:00 in mode SetHour
gives 23:59:58 in mode SetHour. -/
theorem set_get_rtc_time_round_trip_witness :
    in_range w_235958.current_state ∧
      (get_rtc_time (set_rtc_time w_235958)).current_state = w_235958.current_state ∧
      (set_rtc_time w_235958).regs 0x85 = 0x23 ∧ (set_rtc_time w_235958).regs 0x83 = 0x59 ∧
      (set_rtc_time w_235958).regs 0x81 = 0x58 ∧
      (get_rtc_time { set_rtc_time w_235958 with
        current_state := ⟨0, 0, 0, SetHour⟩ }).current_state = ⟨23, 59, 58, SetHour⟩ :=
  ⟨by decide, (set_get_rtc_time_round_trip w_235958 (by decide)).1, by decide, by decide,
    by decide,
    (set_get_rtc_time_round_trip w_235958 (by decide)).2.2.2.2.2.2.2.2.2 ⟨0, 0, 0, SetHour⟩⟩

end RtcControl
